import Mathlib

/-!
# ugreen_leds_cli: argument interpretation and operation dispatch

A shallow embedding of `src/cli/ugreen_leds_cli.cpp` and the properties of its
specification that concern target selection, operation parsing and dispatch.

Conventions of the embedding:

* a `std::string` is a Lean `String`, one `Char` per C++ `char`; `str.size()` is
  `String.length`;
* the process state is a `World`: the controller calls made so far, and the lines
  written to `stdout` and `stderr`;
* the controller behind `std::shared_ptr<ugreen_leds_t>` is external hardware: its
  answers are functions of the history of calls made on it, so every deterministic
  controller is an instance;
* a function that may leave through `std::exit` or through an uncaught exception
  returns `Except Outcome _`, the `Outcome` saying how the process ended;
* the closures stored in `ops_seq` are defunctionalised: one constructor of
  `Callback` per lambda expression, carrying the captured values.
-/

namespace UgreenLeds

/-! ## Data model -/

/-- Modelled from the spec: the enumeration `ugreen_leds_t::led_type_t` declared in
`ugreen_leds.h`, which is not part of the sources; the spec gives the closed set of
indicator identifiers (power, network, disk bays 1 to 8). -/
inductive led_type_t
  | UGREEN_LED_POWER
  | UGREEN_LED_NETDEV
  | UGREEN_LED_DISK1
  | UGREEN_LED_DISK2
  | UGREEN_LED_DISK3
  | UGREEN_LED_DISK4
  | UGREEN_LED_DISK5
  | UGREEN_LED_DISK6
  | UGREEN_LED_DISK7
  | UGREEN_LED_DISK8
  deriving DecidableEq, Repr

/-- Modelled from the spec: the enumeration `ugreen_leds_t::op_mode_t` of
`ugreen_leds.h`; the four modes named by `show_leds_info`, and `other` for every
remaining value of the underlying integer (the `default:` label). -/
inductive op_mode_t
  | off
  | on
  | blink
  | breath
  | other (raw : Nat)
  deriving DecidableEq, Repr

/-- Modelled from the spec: the status record returned by `get_status`
(`ugreen_leds.h`), with the fields read by `show_leds_info`. -/
structure led_data_t where
  is_available : Bool
  op_mode : op_mode_t
  brightness : Nat
  color_r : Nat
  color_g : Nat
  color_b : Nat
  t_on : Nat
  t_off : Nat
  deriving DecidableEq, Repr

/-- The pair `std::pair<std::string, led_type_t>`. -/
abbrev led_type_pair := String × led_type_t

/-- One call on the active controller, with its arguments. -/
inductive Call
  | get_status (id : led_type_t)
  | set_onoff (id : led_type_t) (status : Nat)
  | set_blink (id : led_type_t) (t_on t_off : Nat)
  | set_breath (id : led_type_t) (t_on t_off : Nat)
  | set_oneshot (id : led_type_t) (t_on t_off : Nat)
  | set_rgb (id : led_type_t) (r g b : Nat)
  | set_brightness (id : led_type_t) (brightness : Nat)
  | shot (id : led_type_t)
  deriving DecidableEq, Repr

/-- Modelled from the spec: the controller capability interface `ugreen_leds_t` of
`ugreen_leds.h`. `start` is the code returned by `start()`, `name` the result of
`get_name()`, `status hist id` the snapshot `get_status(id)` returns after the calls
`hist`, and `result hist c` the code the status-returning call `c` returns after the
calls `hist`. -/
structure ugreen_leds_t where
  name : String
  start : Int
  status : List Call → led_type_t → led_data_t
  result : List Call → Call → Int

/-- Modelled from the spec: the three factory functions of `ugreen_leds.h` listed in
`controller_creator`; each yields a controller object, or a null pointer. -/
structure Creators where
  create_socket_controller : Option ugreen_leds_t
  create_i2c_controller : Option ugreen_leds_t
  create_kmod_controller : Option ugreen_leds_t

/-- The observable state of a run. `started` lists the names of the controllers whose
`start()` was called; `calls` the calls made on the active controller after
discovery, oldest first; `out` and `err` the lines written to the two streams. -/
structure World where
  started : List String
  calls : List Call
  out : List String
  err : List String
  deriving DecidableEq, Repr

/-- The state at process start. -/
def World.init : World := ⟨[], [], [], []⟩

/-- Record a call on the active controller. -/
def World.call (w : World) (c : Call) : World :=
  { w with calls := w.calls ++ [c] }

/-- Write one line to `std::cout` / `stdout`. -/
def World.cout (w : World) (line : String) : World :=
  { w with out := w.out ++ [line] }

/-- Write one line to `std::cerr`. -/
def World.cerr (w : World) (line : String) : World :=
  { w with err := w.err ++ [line] }

/-- The exceptions `std::stoi` throws. -/
inductive stoi_error
  | invalid_argument
  | out_of_range
  deriving DecidableEq, Repr

/-- How the process ends: `main` returns a code, `std::exit` is called with a code,
an exception reaches `std::terminate`, or a null `shared_ptr` is dereferenced. -/
inductive Termination
  | returned (code : Int)
  | exited (code : Int)
  | uncaught (e : stoi_error)
  | null_deref
  deriving DecidableEq, Repr

/-- The end of a run: how it ended and what had been done. -/
structure Outcome where
  ending : Termination
  world : World
  deriving DecidableEq, Repr

/-! ## The name table -/

/-- Insertion into a `std::map<std::string, _>`: keys are kept in ascending
lexicographic order and an existing key is left alone. -/
def map_insert (kv : led_type_pair) : List led_type_pair → List led_type_pair
  | [] => [kv]
  | e :: m =>
    if kv.1.data < e.1.data then kv :: e :: m
    else if e.1.data < kv.1.data then e :: map_insert kv m
    else e :: m

/-- The initialiser list of `led_name_map`, in source order. -/
def led_name_map_init : List led_type_pair :=
  [ ("power", .UGREEN_LED_POWER),
    ("netdev", .UGREEN_LED_NETDEV),
    ("disk1", .UGREEN_LED_DISK1),
    ("disk2", .UGREEN_LED_DISK2),
    ("disk3", .UGREEN_LED_DISK3),
    ("disk4", .UGREEN_LED_DISK4),
    ("disk5", .UGREEN_LED_DISK5),
    ("disk6", .UGREEN_LED_DISK6),
    ("disk7", .UGREEN_LED_DISK7),
    ("disk8", .UGREEN_LED_DISK8) ]

/-- The map `led_name_map`, as the sequence of its entries in iteration order. -/
def led_name_map : List led_type_pair :=
  led_name_map_init.foldl (fun m kv => map_insert kv m) []

/-- The lookup `led_name_map.find(name)`, `none` standing for `end()`. -/
def led_name_map_find (name : String) : Option led_type_t :=
  led_name_map.lookup name

/-! ## Output -/

/-- The text written by `show_help`. -/
def usage : String :=
  "Usage: ugreen_leds_cli  [LED-NAME...] [-on] [-off] [-(blink|breath) T_ON T_OFF]\n" ++
  "                    [-color R G B] [-brightness BRIGHTNESS] [-status]\n\n" ++
  "       LED_NAME:    separated by white space, possible values are\n" ++
  "                    \x7b power, netdev, disk[1-8], all \x7d.\n" ++
  "       -on / -off:  turn on / off corresponding LEDs.\n" ++
  "       -blink / -breath:  set LED to the blink / breath mode. This \n" ++
  "                    mode keeps the LED on for T_ON millseconds and then\n" ++
  "                    keeps it off for T_OFF millseconds. \n" ++
  "                    T_ON and T_OFF should belong to [0, 65535].\n" ++
  "       -color:      set the color of corresponding LEDs.\n" ++
  "                    R, G and B should belong to [0, 255].\n" ++
  "       -brightness: set the brightness of corresponding LEDs.\n" ++
  "                    BRIGHTNESS should belong to [0, 255].\n" ++
  "       -status:     display the status of corresponding LEDs.\n"

/-- The function `show_help`: the usage text goes to `std::cerr`. -/
def show_help (w : World) : World :=
  w.cerr usage

/-- The function `show_help_and_exit`: usage text, then `std::exit(-1)`. -/
def show_help_and_exit (w : World) : Outcome :=
  ⟨.exited (-1), show_help w⟩

/-- The call `leds_controller->get_status(id)`. -/
def get_status (ctrl : ugreen_leds_t) (id : led_type_t) (w : World) : led_data_t × World :=
  (ctrl.status w.calls id, w.call (.get_status id))

/-- The text chosen by the `switch` of `show_leds_info`. -/
def op_mode_txt : op_mode_t → String
  | .off => "off"
  | .on => "on"
  | .blink => "blink"
  | .breath => "breath"
  | .other _ => "unknown"

/-- The line `show_leds_info` prints for one indicator. -/
def led_info_line (name : String) (data : led_data_t) : String :=
  if !data.is_available then
    name ++ ": unavailable or non-existent"
  else
    let head :=
      name ++ ": status = " ++ op_mode_txt data.op_mode ++
      ", brightness = " ++ toString data.brightness ++
      ", color = RGB(" ++ toString data.color_r ++ ", " ++ toString data.color_g ++
      ", " ++ toString data.color_b ++ ")"
    if data.op_mode = .blink ∨ data.op_mode = .breath then
      head ++ ", blink_on = " ++ toString data.t_on ++ " ms, blink_off = " ++
        toString data.t_off ++ " ms"
    else head

/-- The function `show_leds_info`: one status query and one line per entry. -/
def show_leds_info (ctrl : ugreen_leds_t) : List led_type_pair → World → World
  | [], w => w
  | led :: leds, w =>
    let r := get_status ctrl led.2 w
    show_leds_info ctrl leds (r.2.cout (led_info_line led.1 r.1))

/-! ## Token validation -/

/-- The function `get_led_type`. -/
def get_led_type (name : String) (w : World) : Except Outcome led_type_t :=
  match led_name_map_find name with
  | none => .error (show_help_and_exit (w.cerr ("Err: unknown LED name " ++ name)))
  | some t => .ok t

/-- The C `isspace` in the default locale, used by `strtol` to skip leading blanks. -/
def isspace (c : Char) : Bool :=
  c = ' ' || c = '\t' || c = '\n' || c = '\x0b' || c = '\x0c' || c = '\r'

/-- A decimal digit. -/
def isdigit (c : Char) : Bool :=
  '0' ≤ c && c ≤ '9'

/-- The value of a run of decimal digits, most significant first. -/
def digits_value (ds : List Char) : Nat :=
  ds.foldl (fun acc c => 10 * acc + (c.toNat - '0'.toNat)) 0

/-- The largest `int`. -/
def INT_MAX : Int := 2147483647

/-- The smallest `int`. -/
def INT_MIN : Int := -2147483648

/-- The library function `std::stoi(str, &size)` in base 10, after the C++ standard:
leading white space is skipped, an optional sign is read, then the longest run of
digits; with no digit `std::invalid_argument` is thrown, with a value outside `int`
`std::out_of_range`; otherwise the value and the number of characters processed are
returned. -/
def stoi (str : List Char) : Except stoi_error (Int × Nat) :=
  let blanks := str.takeWhile isspace
  let s1 := str.dropWhile isspace
  let negative := decide (s1.head? = some '-')
  let s2 := if s1.head? = some '-' ∨ s1.head? = some '+' then s1.tail else s1
  let ds := s2.takeWhile isdigit
  if ds = [] then .error .invalid_argument
  else
    let x : Int := if negative then - (digits_value ds : Int) else (digits_value ds : Int)
    if x < INT_MIN ∨ x > INT_MAX then .error .out_of_range
    else .ok (x, blanks.length + (s1.length - s2.length) + ds.length)

/-- The function `parse_integer`. An exception of `std::stoi` is not caught anywhere
in the program, so it ends the process. -/
def parse_integer (str : String) (low high : Int) (w : World) : Except Outcome Int :=
  match stoi str.data with
  | .error e => .error ⟨.uncaught e, w⟩
  | .ok (x, size) =>
    if size ≠ str.length then
      .error (show_help_and_exit (w.cerr ("Err: " ++ str ++ " is not an integer.")))
    else if x < low ∨ x > high then
      .error (show_help_and_exit (w.cerr
        ("Err: " ++ str ++ " is not in [" ++ toString low ++ ", " ++ toString high ++ "]")))
    else .ok x

/-- The conversion of an `int` to `uint16_t`. -/
def narrow16 (x : Int) : Nat := (x % 65536).toNat

/-- The conversion of an `int` to `uint8_t`. -/
def narrow8 (x : Int) : Nat := (x % 256).toNat

/-! ## Target selection -/

/-- The test `args.front().front() != '-'` negated: the token is flag-marked. For an
empty token `front()` yields the terminating NUL, which is not the marker. -/
def is_flag (tok : String) : Bool :=
  tok.data.head? = some '-'

/-- The body of the branch for the token "all": every entry of `led_name_map`, in
iteration order, is queried and kept when it reports available. -/
def select_all (ctrl : ugreen_leds_t) :
    List led_type_pair → List led_type_pair → World → List led_type_pair × World
  | [], leds, w => (leds, w)
  | v :: m, leds, w =>
    let r := get_status ctrl v.2 w
    if r.1.is_available then select_all ctrl m (leds ++ [v]) r.2
    else select_all ctrl m leds r.2

/-- The loop `// parse LED names` of `main`: consumes the leading tokens that are
not flag-marked and returns the selected pairs and the remaining tokens. -/
def select (ctrl : ugreen_leds_t) :
    List String → List led_type_pair → World →
      Except Outcome (List led_type_pair × List String × World)
  | [], leds, w => .ok (leds, [], w)
  | front :: args, leds, w =>
    if is_flag front then .ok (leds, front :: args, w)
    else if front = "all" then
      let r := select_all ctrl led_name_map leds w
      select ctrl args r.1 r.2
    else
      match get_led_type front w with
      | .error o => .error o
      | .ok led_type => select ctrl args (leds ++ [(front, led_type)]) w

/-! ## Operations -/

/-- The lambda expressions pushed on `ops_seq`, each with the values it captures by
copy: the one of `-on` / `-off` (`status`), the one of `-blink` / `-breath` /
`-oneshot` (`is_blink`, `is_oneshot`, `t_on`, `t_off`), the one of `-color`, the one
of `-brightness`, the one of `-status` and the one of `-shot`. -/
inductive Callback
  | onoff (status : Nat)
  | timed (is_blink is_oneshot : Bool) (t_on t_off : Nat)
  | rgb (R G B : Nat)
  | brightness (brightness : Nat)
  | status
  | shot
  deriving DecidableEq, Repr

/-- The pair `ops_pair`: the `is_modification` tag and the callback. -/
abbrev ops_pair := Bool × Callback

/-- A call on the controller that returns a status code. -/
def invoke (ctrl : ugreen_leds_t) (c : Call) (w : World) : Int × World :=
  (ctrl.result w.calls c, w.call c)

/-- Running a callback on one indicator: the code it returns and the new state. -/
def Callback.apply (ctrl : ugreen_leds_t) : Callback → led_type_pair → World → Int × World
  | .onoff st, led, w => invoke ctrl (.set_onoff led.2 st) w
  | .timed is_blink is_oneshot t_on t_off, led, w =>
    if is_blink then invoke ctrl (.set_blink led.2 t_on t_off) w
    else if is_oneshot then
      invoke ctrl (.set_oneshot led.2 t_on t_off) (invoke ctrl (.set_onoff led.2 1) w).2
    else invoke ctrl (.set_breath led.2 t_on t_off) w
  | .rgb R G B, led, w => invoke ctrl (.set_rgb led.2 R G B) w
  | .brightness b, led, w => invoke ctrl (.set_brightness led.2 b) w
  | .status, led, w => (0, show_leds_info ctrl [led] w)
  | .shot, led, w => (0, w.call (.shot led.2))

/-- The operand part of the branch for `-blink`, `-breath` and `-oneshot`, once two
tokens are known to remain: both are parsed and the callback is built; `front` is the
flag that selected the branch. -/
def parse_timed (front a b : String) (w : World) : Except Outcome ops_pair :=
  let is_blink : Bool := front = "-blink"
  let is_oneshot : Bool := front = "-oneshot"
  match parse_integer a 0x0000 0xffff w with
  | .error o => .error o
  | .ok t_on =>
    match parse_integer b 0x0000 0xffff w with
    | .error o => .error o
    | .ok t_off => .ok (true, .timed is_blink is_oneshot (narrow16 t_on) (narrow16 t_off))

/-- The exit of the branch for `-blink`, `-breath` and `-oneshot` when fewer than two
tokens remain. -/
def timed_arity_error (w : World) : Outcome :=
  show_help_and_exit (w.cerr "Err: -blink / -breath requires 2 parameters")

/-- The operand part of the branch for `-color`, once three tokens are known to
remain. -/
def parse_color (a b c : String) (w : World) : Except Outcome ops_pair :=
  match parse_integer a 0x00 0xff w with
  | .error o => .error o
  | .ok R =>
    match parse_integer b 0x00 0xff w with
    | .error o => .error o
    | .ok G =>
      match parse_integer c 0x00 0xff w with
      | .error o => .error o
      | .ok B => .ok (true, .rgb (narrow8 R) (narrow8 G) (narrow8 B))

/-- The operand part of the branch for `-brightness`, once a token is known to
remain. -/
def parse_brightness (a : String) (w : World) : Except Outcome ops_pair :=
  match parse_integer a 0x00 0xff w with
  | .error o => .error o
  | .ok brightness => .ok (true, .brightness (narrow8 brightness))

/-- The loop `while (!args.empty())` of `main` that fills `ops_seq`. The chain of
comparisons of `args.front()` is written as one equation per flag and per outcome of
the test on `args.size()`; the first equation that applies is taken, as in the chain.
For `-on` and `-off` the captured `status` is the value of `args.front() == "-on"`. -/
def parse_ops : List String → List ops_pair → World → Except Outcome (List ops_pair)
  | [], ops_seq, _ => .ok ops_seq
  | "-on" :: args, ops_seq, w => parse_ops args (ops_seq ++ [(true, .onoff 1)]) w
  | "-off" :: args, ops_seq, w => parse_ops args (ops_seq ++ [(true, .onoff 0)]) w
  | "-blink" :: a :: b :: args, ops_seq, w =>
    match parse_timed "-blink" a b w with
    | .error o => .error o
    | .ok fn_pair => parse_ops args (ops_seq ++ [fn_pair]) w
  | "-blink" :: _, _, w => .error (timed_arity_error w)
  | "-breath" :: a :: b :: args, ops_seq, w =>
    match parse_timed "-breath" a b w with
    | .error o => .error o
    | .ok fn_pair => parse_ops args (ops_seq ++ [fn_pair]) w
  | "-breath" :: _, _, w => .error (timed_arity_error w)
  | "-oneshot" :: a :: b :: args, ops_seq, w =>
    match parse_timed "-oneshot" a b w with
    | .error o => .error o
    | .ok fn_pair => parse_ops args (ops_seq ++ [fn_pair]) w
  | "-oneshot" :: _, _, w => .error (timed_arity_error w)
  | "-color" :: a :: b :: c :: args, ops_seq, w =>
    match parse_color a b c w with
    | .error o => .error o
    | .ok fn_pair => parse_ops args (ops_seq ++ [fn_pair]) w
  | "-color" :: _, _, w =>
    .error (show_help_and_exit (w.cerr "Err: -color requires 3 parameters"))
  | "-brightness" :: a :: args, ops_seq, w =>
    match parse_brightness a w with
    | .error o => .error o
    | .ok fn_pair => parse_ops args (ops_seq ++ [fn_pair]) w
  | "-brightness" :: _, _, w =>
    .error (show_help_and_exit (w.cerr "Err: -brightness requires 1 parameter"))
  | "-status" :: args, ops_seq, w => parse_ops args (ops_seq ++ [(false, .status)]) w
  | "-shot" :: args, ops_seq, w => parse_ops args (ops_seq ++ [(false, .shot)]) w
  | front :: _, _, w =>
    .error (show_help_and_exit (w.cerr ("Err: unknown parameter " ++ front)))

/-! ## Dispatch -/

/-- The inner loop of the dispatch: the callbacks in sequence order on one
indicator, stopping with `return -1` at the first nonzero code. -/
def run_ops (ctrl : ugreen_leds_t) (led : led_type_pair) :
    List ops_pair → World → Except Outcome World
  | [], w => .ok w
  | fn_pair :: ops_seq, w =>
    let r := fn_pair.2.apply ctrl led w
    if r.1 ≠ 0 then .error ⟨.returned (-1), r.2.cerr "failed to change status!"⟩
    else run_ops ctrl led ops_seq r.2

/-- The dispatch loop of `main`: every indicator in list order, then `return 0`. -/
def dispatch (ctrl : ugreen_leds_t) : List led_type_pair → List ops_pair → World → Outcome
  | [], _, w => ⟨.returned 0, w⟩
  | led :: leds, ops_seq, w =>
    match run_ops ctrl led ops_seq w with
    | .error o => o
    | .ok w1 => dispatch ctrl leds ops_seq w1

/-! ## Controller discovery and `main` -/

/-- The loop over `controller_creator`: `cur` is the value of `leds_controller`. -/
def discover :
    List (Option ugreen_leds_t) → Option ugreen_leds_t → World →
      Except Outcome (Option ugreen_leds_t × World)
  | [], cur, w => .ok (cur, w)
  | creator :: rest, _, w =>
    match creator with
    | none => .error ⟨.null_deref, w⟩
    | some c =>
      let w1 : World := { w with started := w.started ++ [c.name] }
      if c.start = 0 then .ok (some c, w1.cout ("Using " ++ c.name ++ " controller."))
      else discover rest (some c) w1

/-- The part of `main` after controller discovery, for the active controller. -/
def run (ctrl : ugreen_leds_t) (args : List String) (w : World) : Outcome :=
  match select ctrl args [] w with
  | .error o => o
  | .ok (leds, args, w) =>
    if args = [] then ⟨.returned 0, show_leds_info ctrl leds w⟩
    else
      match parse_ops args [] w with
      | .error o => o
      | .ok ops_seq => dispatch ctrl leds ops_seq w

/-- The function `main`; `args` is the token list `argv[1..argc-1]`. -/
def main (creators : Creators) (args : List String) : Outcome :=
  if args = [] then ⟨.returned 0, show_help World.init⟩
  else
    match discover [creators.create_socket_controller, creators.create_i2c_controller,
        creators.create_kmod_controller] none World.init with
    | .error o => o
    | .ok (none, w) =>
      ⟨.returned (-1),
        ((w.cerr "Err: fail to open the I2C device.").cerr
          "Please check that (1) you have the root permission; ").cerr
          "              and (2) the i2c-dev module is loaded. "⟩
    | .ok (some leds_controller, w) => run leds_controller args w

/-! ## Vocabulary of the statements -/

/-- The controller calls a callback issues on one indicator, in order. -/
def Callback.calls : Callback → led_type_pair → List Call
  | .onoff st, led => [.set_onoff led.2 st]
  | .timed is_blink is_oneshot t_on t_off, led =>
    if is_blink then [.set_blink led.2 t_on t_off]
    else if is_oneshot then [.set_onoff led.2 1, .set_oneshot led.2 t_on t_off]
    else [.set_breath led.2 t_on t_off]
  | .rgb R G B, led => [.set_rgb led.2 R G B]
  | .brightness b, led => [.set_brightness led.2 b]
  | .status, led => [.get_status led.2]
  | .shot, led => [.shot led.2]

/-- The calls of a complete dispatch: targets in list order, and for each target the
operations in sequence order. -/
def nested_calls (leds : List led_type_pair) (ops_seq : List ops_pair) : List Call :=
  leds.flatMap (fun led => ops_seq.flatMap (fun fn_pair => fn_pair.2.calls led))

/-- The calls that return a status code: the `set_*` calls. -/
def Call.returns_code : Call → Bool
  | .get_status _ => false
  | .shot _ => false
  | _ => true

/-- The mutating calls: the `set_*` calls and `shot`. -/
def Call.is_mutating : Call → Bool
  | .get_status _ => false
  | _ => true

/-- Every status-returning call of `cs`, issued in order after the calls `hist`,
returns 0. -/
def all_succeed (ctrl : ugreen_leds_t) : List Call → List Call → Bool
  | _, [] => true
  | hist, c :: cs =>
    (!c.returns_code || decide (ctrl.result hist c = 0)) && all_succeed ctrl (hist ++ [c]) cs

/-- The availability queries made for one token "all": one `get_status` per entry of
`led_name_map`, in iteration order. -/
def all_queries : List Call :=
  led_name_map.map (fun v => Call.get_status v.2)

/-- A token the selection loop accepts: not flag-marked, and "all" or a key of
`led_name_map`. -/
def valid_selector (tok : String) : Bool :=
  !is_flag tok && (tok = "all" || (led_name_map_find tok).isSome)

/-- The calls made by the selection loop: the availability queries of every token
"all" among the leading tokens the loop accepts. -/
def selection_queries (args : List String) : List Call :=
  (args.takeWhile valid_selector).flatMap (fun tok => if tok = "all" then all_queries else [])

/-- The run ended on a validation failure: through `std::exit`, which only
`show_help_and_exit` calls, or through an exception of `std::stoi`. -/
def Termination.is_validation_failure : Termination → Bool
  | .exited _ => true
  | .uncaught _ => true
  | _ => false

/-- The value of a plain decimal integer literal: an optional sign followed by one or
more decimal digits; `none` for any other token. -/
def literal_value (s : String) : Option Int :=
  match s.data with
  | '-' :: ds => if ds ≠ [] ∧ ds.all isdigit = true then some (-(digits_value ds : Int)) else none
  | '+' :: ds => if ds ≠ [] ∧ ds.all isdigit = true then some (digits_value ds : Int) else none
  | ds => if ds ≠ [] ∧ ds.all isdigit = true then some (digits_value ds : Int) else none

/-! ## Controllers used as examples -/

/-- A snapshot: available, steadily on. -/
def sample_data : led_data_t := ⟨true, .on, 255, 255, 255, 255, 0, 0⟩

/-- A controller on which every call succeeds and every indicator is available. -/
def good_controller : ugreen_leds_t :=
  ⟨"i2c", 0, fun _ _ => sample_data, fun _ _ => 0⟩

/-- A controller whose calls on the indicator `disk1` fail and all others succeed. -/
def disk1_failing_controller : ugreen_leds_t :=
  ⟨"i2c", 0, fun _ _ => sample_data,
    fun _ c =>
      match c with
      | .set_onoff .UGREEN_LED_DISK1 _ => -1
      | _ => 0⟩

/-- Factories that all yield `disk1_failing_controller`. -/
def disk1_failing_creators : Creators :=
  ⟨some disk1_failing_controller, some disk1_failing_controller, some disk1_failing_controller⟩

/-- Factories that all yield `good_controller`. -/
def good_creators : Creators :=
  ⟨some good_controller, some good_controller, some good_controller⟩

/-- A controller whose `start()` fails; its calls succeed. -/
def dead_controller (name : String) : ugreen_leds_t :=
  ⟨name, -1, fun _ _ => sample_data, fun _ _ => 0⟩

/-- Factories whose three controllers all fail to start. -/
def dead_creators : Creators :=
  ⟨some (dead_controller "socket"), some (dead_controller "i2c"),
    some (dead_controller "kmod")⟩

/-- A controller that reports only `disk2` and `power` as available. -/
def two_leds_controller : ugreen_leds_t :=
  ⟨"i2c", 0,
    fun _ id =>
      match id with
      | .UGREEN_LED_DISK2 => sample_data
      | .UGREEN_LED_POWER => sample_data
      | _ => { sample_data with is_available := false },
    fun _ _ => 0⟩

/-- A controller whose `set_onoff` always fails and whose other calls succeed. -/
def onoff_failing_controller : ugreen_leds_t :=
  ⟨"i2c", 0, fun _ _ => sample_data,
    fun _ c =>
      match c with
      | .set_onoff _ _ => -1
      | _ => 0⟩

/-- A controller that reports no indicator as available. -/
def no_leds_controller : ugreen_leds_t :=
  ⟨"i2c", 0, fun _ _ => { sample_data with is_available := false }, fun _ _ => 0⟩

/-- The controller in use after the loop over `controller_creator`, for three
factories that yield the objects `s`, `i` and `k`: the first whose `start()` returned
0, and the last one created when none did. -/
def active_controller (s i k : ugreen_leds_t) : ugreen_leds_t :=
  if s.start = 0 then s else if i.start = 0 then i else k

/-- The state after the loop over `controller_creator`, for three factories that yield
the objects `s`, `i` and `k`. -/
def discovered_world (s i k : ugreen_leds_t) : World :=
  if s.start = 0 then ⟨[s.name], [], ["Using " ++ s.name ++ " controller."], []⟩
  else if i.start = 0 then ⟨[s.name, i.name], [], ["Using " ++ i.name ++ " controller."], []⟩
  else if k.start = 0 then
    ⟨[s.name, i.name, k.name], [], ["Using " ++ k.name ++ " controller."], []⟩
  else ⟨[s.name, i.name, k.name], [], [], []⟩

/-- The lines `show_leds_info` prints for the entries `leds` when the calls `hist` have
been made before: one line per entry, built from the entry's name and the snapshot
`get_status` returns at that point. -/
def status_lines (ctrl : ugreen_leds_t) : List Call → List led_type_pair → List String
  | _, [] => []
  | hist, led :: leds =>
    led_info_line led.1 (ctrl.status hist led.2) ::
      status_lines ctrl (hist ++ [Call.get_status led.2]) leds

/-- The number of operand tokens the parser pops after a flag: the bound of the test
on `args.size()` in the flag's branch, 0 for a branch without such a test; `none` for
a token that is not a flag. -/
def flag_arity (front : String) : Option Nat :=
  if front = "-on" ∨ front = "-off" then some 0
  else if front = "-blink" ∨ front = "-breath" ∨ front = "-oneshot" then some 2
  else if front = "-color" then some 3
  else if front = "-brightness" then some 1
  else if front = "-status" then some 0
  else if front = "-shot" then some 0
  else none

/-! ## Dispatch order and failure -/

theorem apply_calls (ctrl : ugreen_leds_t) (op : Callback) (led : led_type_pair) (w : World) :
    (op.apply ctrl led w).2.calls = w.calls ++ op.calls led := by
  cases op with
  | timed is_blink is_oneshot t_on t_off =>
    cases is_blink <;> cases is_oneshot <;>
      simp [Callback.apply, Callback.calls, invoke, World.call]
  | _ =>
    simp [Callback.apply, Callback.calls, invoke, World.call, show_leds_info, get_status,
      World.cout]

theorem all_succeed_append (ctrl : ugreen_leds_t) (hist a b : List Call) :
    all_succeed ctrl hist (a ++ b) =
      (all_succeed ctrl hist a && all_succeed ctrl (hist ++ a) b) := by
  induction a generalizing hist with
  | nil => simp [all_succeed]
  | cons c a ih => simp [all_succeed, ih, Bool.and_assoc]

theorem apply_code_zero (ctrl : ugreen_leds_t) (op : Callback) (led : led_type_pair)
    (w : World) (h : all_succeed ctrl w.calls (op.calls led) = true) :
    (op.apply ctrl led w).1 = 0 := by
  cases op with
  | timed is_blink is_oneshot t_on t_off =>
    cases is_blink <;> cases is_oneshot <;>
      simp_all [Callback.apply, Callback.calls, invoke, World.call, all_succeed,
        Call.returns_code]
  | _ =>
    simp_all [Callback.apply, Callback.calls, invoke, World.call, all_succeed,
      Call.returns_code]

theorem run_ops_ok (ctrl : ugreen_leds_t) (led : led_type_pair) (ops_seq : List ops_pair)
    (w : World)
    (h : all_succeed ctrl w.calls (ops_seq.flatMap (fun fn_pair => fn_pair.2.calls led)) = true) :
    ∃ w1, run_ops ctrl led ops_seq w = .ok w1 ∧
      w1.calls = w.calls ++ ops_seq.flatMap (fun fn_pair => fn_pair.2.calls led) := by
  induction ops_seq generalizing w with
  | nil => exact ⟨w, rfl, by simp⟩
  | cons fn_pair ops_seq ih =>
    simp only [List.flatMap_cons, all_succeed_append, Bool.and_eq_true] at h
    have h0 := apply_code_zero ctrl fn_pair.2 led w h.1
    have hc := apply_calls ctrl fn_pair.2 led w
    obtain ⟨w1, hw1, hcalls⟩ := ih (fn_pair.2.apply ctrl led w).2 (by rw [hc]; exact h.2)
    refine ⟨w1, ?_, ?_⟩
    · simp [run_ops, h0, hw1]
    · simp [hcalls, hc]

/-- C1: when every call of the nested trace succeeds, the dispatch loop returns 0 and
the calls it has issued are exactly the nested trace: for each target in list order,
the calls of each operation in sequence order; for targets [A, B] and operations
[op1, op2] that trace is A/op1, A/op2, B/op1, B/op2. -/
theorem dispatch_nested_order (ctrl : ugreen_leds_t) (leds : List led_type_pair)
    (ops_seq : List ops_pair) (w : World)
    (h : all_succeed ctrl w.calls (nested_calls leds ops_seq) = true) :
    (dispatch ctrl leds ops_seq w).ending = .returned 0 ∧
    (dispatch ctrl leds ops_seq w).world.calls = w.calls ++ nested_calls leds ops_seq ∧
    (∀ A B : led_type_pair, ∀ op1 op2 : ops_pair,
      nested_calls [A, B] [op1, op2] =
        op1.2.calls A ++ op2.2.calls A ++ op1.2.calls B ++ op2.2.calls B) := by
  refine ⟨?_, ?_, ?_⟩
  case refine_3 => intro A B op1 op2; simp [nested_calls]
  all_goals
    induction leds generalizing w with
    | nil => simp [dispatch, nested_calls]
    | cons led leds ih =>
      simp only [nested_calls, List.flatMap_cons, all_succeed_append, Bool.and_eq_true] at h
      obtain ⟨w1, hw1, hcalls⟩ := run_ops_ok ctrl led ops_seq w h.1
      have h2 := ih w1 (by rw [hcalls]; exact h.2)
      simp only [dispatch, hw1]
      first
        | exact h2
        | (rw [h2, hcalls]; simp [nested_calls])

/-- Witness of C1: the run `power disk1 -on -brightness 5` on a controller that never
fails. -/
theorem dispatch_nested_order_witness :
    (dispatch good_controller [("power", .UGREEN_LED_POWER), ("disk1", .UGREEN_LED_DISK1)]
        [(true, .onoff 1), (true, .brightness 5)] World.init).ending = .returned 0 ∧
    (dispatch good_controller [("power", .UGREEN_LED_POWER), ("disk1", .UGREEN_LED_DISK1)]
        [(true, .onoff 1), (true, .brightness 5)] World.init).world.calls =
      [.set_onoff .UGREEN_LED_POWER 1, .set_brightness .UGREEN_LED_POWER 5,
        .set_onoff .UGREEN_LED_DISK1 1, .set_brightness .UGREEN_LED_DISK1 5] :=
  ⟨(dispatch_nested_order good_controller _ _ World.init (by decide)).1,
    (dispatch_nested_order good_controller _ _ World.init (by decide)).2.1⟩

theorem run_ops_error_ending (ctrl : ugreen_leds_t) (led : led_type_pair)
    (ops_seq : List ops_pair) (w : World) (o : Outcome)
    (h : run_ops ctrl led ops_seq w = .error o) : o.ending = .returned (-1) := by
  induction ops_seq generalizing w with
  | nil => simp [run_ops] at h
  | cons fn_pair ops_seq ih =>
    simp only [run_ops] at h
    split at h
    · cases h; rfl
    · exact ih _ h

theorem run_ops_calls (ctrl : ugreen_leds_t) (led : led_type_pair) (ops_seq : List ops_pair)
    (w w1 : World) (h : run_ops ctrl led ops_seq w = .ok w1) :
    w1.calls = w.calls ++ nested_calls [led] ops_seq := by
  induction ops_seq generalizing w with
  | nil => simp [run_ops] at h; simp [← h, nested_calls]
  | cons fn_pair ops_seq ih =>
    simp only [run_ops] at h
    split at h
    · cases h
    · have := ih _ h
      simp [this, apply_calls, nested_calls]

theorem dispatch_calls (ctrl : ugreen_leds_t) (leds : List led_type_pair)
    (ops_seq : List ops_pair) (w w1 : World)
    (h : dispatch ctrl leds ops_seq w = ⟨.returned 0, w1⟩) :
    w1.calls = w.calls ++ nested_calls leds ops_seq := by
  induction leds generalizing w with
  | nil => simp [dispatch] at h; simp [← h, nested_calls]
  | cons led leds ih =>
    simp only [dispatch] at h
    split at h
    · rename_i o ho
      have := run_ops_error_ending ctrl led ops_seq w o ho
      rw [h] at this
      simp at this
    · rename_i w2 hw2
      have h1 := run_ops_calls ctrl led ops_seq w w2 hw2
      have h2 := ih w2 h
      simp [h2, h1, nested_calls]

theorem run_ops_append_ok (ctrl : ugreen_leds_t) (led : led_type_pair)
    (O1 O2 : List ops_pair) (w w2 : World) (h : run_ops ctrl led O1 w = .ok w2) :
    run_ops ctrl led (O1 ++ O2) w = run_ops ctrl led O2 w2 := by
  induction O1 generalizing w with
  | nil => simp [run_ops] at h; simp [h]
  | cons fn_pair O1 ih =>
    simp only [run_ops] at h
    split at h
    · cases h
    · rename_i hz
      simp only [List.cons_append, run_ops, hz, if_false]
      exact ih _ h

theorem dispatch_append_ok (ctrl : ugreen_leds_t) (L1 L2 : List led_type_pair)
    (ops_seq : List ops_pair) (w w1 : World)
    (h : dispatch ctrl L1 ops_seq w = ⟨.returned 0, w1⟩) :
    dispatch ctrl (L1 ++ L2) ops_seq w = dispatch ctrl L2 ops_seq w1 := by
  induction L1 generalizing w with
  | nil => simp [dispatch] at h; simp [h]
  | cons led L1 ih =>
    simp only [dispatch] at h
    split at h
    · rename_i o ho
      have := run_ops_error_ending ctrl led ops_seq w o ho
      rw [h] at this
      simp at this
    · rename_i w2 hw2
      simp only [List.cons_append, dispatch, hw2]
      exact ih _ h

theorem run_ops_error_split (ctrl : ugreen_leds_t) (led : led_type_pair)
    (ops_seq : List ops_pair) (w : World) (o : Outcome)
    (h : run_ops ctrl led ops_seq w = .error o) :
    ∃ O1 op O2 w2, ops_seq = O1 ++ op :: O2 ∧ run_ops ctrl led O1 w = .ok w2 ∧
      (op.2.apply ctrl led w2).1 ≠ 0 ∧
      o = ⟨.returned (-1), (op.2.apply ctrl led w2).2.cerr "failed to change status!"⟩ := by
  induction ops_seq generalizing w with
  | nil => simp [run_ops] at h
  | cons fn_pair ops_seq ih =>
    simp only [run_ops] at h
    split at h
    · rename_i hz
      cases h
      exact ⟨[], fn_pair, ops_seq, w, rfl, rfl, hz, rfl⟩
    · rename_i hz
      obtain ⟨O1, op, O2, w2, hO, hrun, hne, ho⟩ := ih _ h
      refine ⟨fn_pair :: O1, op, O2, w2, by simp [hO], ?_, hne, ho⟩
      simp only [run_ops, hz, if_false]
      exact hrun

theorem dispatch_error_split (ctrl : ugreen_leds_t) (leds : List led_type_pair)
    (ops_seq : List ops_pair) (w : World)
    (h : (dispatch ctrl leds ops_seq w).ending ≠ .returned 0) :
    ∃ L1 led L2 O1 op O2 w1 w2, leds = L1 ++ led :: L2 ∧ ops_seq = O1 ++ op :: O2 ∧
      dispatch ctrl L1 ops_seq w = ⟨.returned 0, w1⟩ ∧ run_ops ctrl led O1 w1 = .ok w2 ∧
      (op.2.apply ctrl led w2).1 ≠ 0 ∧
      dispatch ctrl leds ops_seq w =
        ⟨.returned (-1), (op.2.apply ctrl led w2).2.cerr "failed to change status!"⟩ := by
  induction leds generalizing w with
  | nil => simp [dispatch] at h
  | cons led leds ih =>
    cases hr : run_ops ctrl led ops_seq w with
    | error o =>
      obtain ⟨O1, op, O2, w2, hO, hrun, hne, ho⟩ := run_ops_error_split ctrl led ops_seq w o hr
      exact ⟨[], led, leds, O1, op, O2, w, w2, rfl, hO, rfl, hrun, hne, by
        simp only [dispatch, hr, ho]⟩
    | ok w3 =>
      simp only [dispatch, hr] at h
      obtain ⟨L1, l, L2, O1, op, O2, w1, w2, hL, hO, hd, hrun, hne, hres⟩ := ih w3 h
      refine ⟨led :: L1, l, L2, O1, op, O2, w1, w2, by simp [hL], hO, ?_, hrun, hne, ?_⟩
      · simp only [dispatch, hr]; exact hd
      · simp only [dispatch, hr]; exact hres

theorem apply_nonzero (ctrl : ugreen_leds_t) (op : Callback) (led : led_type_pair)
    (w : World) (h : (op.apply ctrl led w).1 ≠ 0) :
    op ≠ .status ∧ op ≠ .shot ∧
    ∃ pre c, (op.apply ctrl led w).2.calls = pre ++ [c] ∧ c.returns_code = true ∧
      ctrl.result pre c ≠ 0 := by
  cases op with
  | status => simp [Callback.apply] at h
  | shot => simp [Callback.apply] at h
  | onoff st =>
    exact ⟨by simp, by simp, w.calls, .set_onoff led.2 st, rfl, rfl, h⟩
  | rgb R G B =>
    exact ⟨by simp, by simp, w.calls, .set_rgb led.2 R G B, rfl, rfl, h⟩
  | brightness b =>
    exact ⟨by simp, by simp, w.calls, .set_brightness led.2 b, rfl, rfl, h⟩
  | timed is_blink is_oneshot t_on t_off =>
    refine ⟨by simp, by simp, ?_⟩
    cases is_blink
    · cases is_oneshot
      · exact ⟨w.calls, .set_breath led.2 t_on t_off, rfl, rfl, h⟩
      · exact ⟨w.calls ++ [Call.set_onoff led.2 1], Call.set_oneshot led.2 t_on t_off, rfl, rfl, h⟩
    · exact ⟨w.calls, .set_blink led.2 t_on t_off, rfl, rfl, h⟩

/-- C2: dispatch stops at the first operation whose result call returns a nonzero
code. If all pairs before (led, op) in nested order succeeded and the result call of
op on led fails, the run ends there with `return -1` after the diagnostic, whatever
targets and operations follow, and the calls issued are those of the earlier pairs and
of op on led. Conversely a dispatch that does not return 0 ended at such a pair: its
operation is neither `-status` nor `-shot`, and the last call issued is a `set_*` call
that returned a nonzero code. The callbacks of `-status` and `-shot` always return 0. -/
theorem dispatch_fail_fast (ctrl : ugreen_leds_t) :
    (∀ (L1 : List led_type_pair) (led : led_type_pair) (L2 : List led_type_pair)
        (O1 : List ops_pair) (op : ops_pair) (O2 : List ops_pair) (w w1 w2 : World),
      dispatch ctrl L1 (O1 ++ op :: O2) w = ⟨.returned 0, w1⟩ →
      run_ops ctrl led O1 w1 = .ok w2 →
      (op.2.apply ctrl led w2).1 ≠ 0 →
      dispatch ctrl (L1 ++ led :: L2) (O1 ++ op :: O2) w =
          ⟨.returned (-1), (op.2.apply ctrl led w2).2.cerr "failed to change status!"⟩ ∧
        (dispatch ctrl (L1 ++ led :: L2) (O1 ++ op :: O2) w).world.calls =
          w.calls ++ nested_calls L1 (O1 ++ op :: O2) ++ nested_calls [led] O1 ++
            op.2.calls led) ∧
    (∀ (leds : List led_type_pair) (ops_seq : List ops_pair) (w : World),
      (dispatch ctrl leds ops_seq w).ending ≠ .returned 0 →
      ∃ L1 led L2 O1 op O2 w1 w2, leds = L1 ++ led :: L2 ∧ ops_seq = O1 ++ op :: O2 ∧
        dispatch ctrl L1 ops_seq w = ⟨.returned 0, w1⟩ ∧ run_ops ctrl led O1 w1 = .ok w2 ∧
        (op.2.apply ctrl led w2).1 ≠ 0 ∧ op.2 ≠ .status ∧ op.2 ≠ .shot ∧
        (dispatch ctrl leds ops_seq w).ending = .returned (-1) ∧
        ∃ pre c, (dispatch ctrl leds ops_seq w).world.calls = pre ++ [c] ∧
          c.returns_code = true ∧ ctrl.result pre c ≠ 0) ∧
    (∀ (led : led_type_pair) (w : World),
      (Callback.status.apply ctrl led w).1 = 0 ∧ (Callback.shot.apply ctrl led w).1 = 0) := by
  refine ⟨?_, ?_, ?_⟩
  · intro L1 led L2 O1 op O2 w w1 w2 hd hrun hne
    have hres : dispatch ctrl (L1 ++ led :: L2) (O1 ++ op :: O2) w =
        ⟨.returned (-1), (op.2.apply ctrl led w2).2.cerr "failed to change status!"⟩ := by
      rw [dispatch_append_ok ctrl L1 (led :: L2) _ w w1 hd]
      simp only [dispatch, run_ops_append_ok ctrl led O1 (op :: O2) w1 w2 hrun, run_ops, hne,
        ne_eq, not_false_eq_true, if_true]
    refine ⟨hres, ?_⟩
    rw [hres]
    have h1 := dispatch_calls ctrl L1 _ w w1 hd
    have h2 := run_ops_calls ctrl led O1 w1 w2 hrun
    simp [World.cerr, apply_calls, h1, h2]
  · intro leds ops_seq w h
    obtain ⟨L1, led, L2, O1, op, O2, w1, w2, hL, hO, hd, hrun, hne, hres⟩ :=
      dispatch_error_split ctrl leds ops_seq w h
    obtain ⟨hs, hsh, pre, c, hc, hrc, hnz⟩ := apply_nonzero ctrl op.2 led w2 hne
    refine ⟨L1, led, L2, O1, op, O2, w1, w2, hL, hO, hd, hrun, hne, hs, hsh, ?_, pre, c, ?_,
      hrc, hnz⟩
    · rw [hres]
    · rw [hres]; exact hc
  · intro led w
    exact ⟨rfl, rfl⟩

/-- Witness of C2: with targets power, disk1, disk2 and operations `-on`,
`-brightness 5` on a controller whose `set_onoff` fails on disk1, dispatch ends at
disk1 / `-on`. -/
theorem dispatch_fail_fast_witness :
    dispatch disk1_failing_controller
        ([("power", .UGREEN_LED_POWER)] ++ ("disk1", .UGREEN_LED_DISK1) ::
          [("disk2", .UGREEN_LED_DISK2)])
        ([] ++ (true, .onoff 1) :: [(true, .brightness 5)]) World.init =
      ⟨.returned (-1),
        ⟨[], [.set_onoff .UGREEN_LED_POWER 1, .set_brightness .UGREEN_LED_POWER 5,
          .set_onoff .UGREEN_LED_DISK1 1], [], ["failed to change status!"]⟩⟩ :=
  ((dispatch_fail_fast disk1_failing_controller).1 [("power", .UGREEN_LED_POWER)]
    ("disk1", .UGREEN_LED_DISK1) [("disk2", .UGREEN_LED_DISK2)] [] (true, .onoff 1)
    [(true, .brightness 5)] World.init
    ⟨[], [.set_onoff .UGREEN_LED_POWER 1, .set_brightness .UGREEN_LED_POWER 5], [], []⟩
    ⟨[], [.set_onoff .UGREEN_LED_POWER 1, .set_brightness .UGREEN_LED_POWER 5], [], []⟩
    rfl rfl (by decide)).1

/-- C3, as stated, fails: in the run `power disk1 -on -off` on a controller whose
`set_onoff` succeeds on power and fails on disk1, the call power / `-on` succeeds, the
call disk1 / `-on` fails and the process returns -1, yet power / `-off` has been
issued: the trace is (power, -on), (power, -off), (disk1, -on). -/
theorem op2_attempted_on_first_target :
    disk1_failing_controller.result [] (.set_onoff .UGREEN_LED_POWER 1) = 0 ∧
    disk1_failing_controller.result
        [.set_onoff .UGREEN_LED_POWER 1, .set_onoff .UGREEN_LED_POWER 0]
        (.set_onoff .UGREEN_LED_DISK1 1) ≠ 0 ∧
    (main disk1_failing_creators ["power", "disk1", "-on", "-off"]).ending = .returned (-1) ∧
    (main disk1_failing_creators ["power", "disk1", "-on", "-off"]).world.calls =
      [.set_onoff .UGREEN_LED_POWER 1, .set_onoff .UGREEN_LED_POWER 0,
        .set_onoff .UGREEN_LED_DISK1 1] ∧
    Call.set_onoff .UGREEN_LED_POWER 0 ∈
      (main disk1_failing_creators ["power", "disk1", "-on", "-off"]).world.calls := by
  decide

/-- C3, amended: for targets [A, B] and operations [op1, op2], if op1 and op2 succeed
on A and op1 then fails on B, the dispatch returns -1 after the diagnostic and the
calls issued are exactly those of A/op1, A/op2 and B/op1: the mutations made on A stay
(no further call follows the failing one) and op2 is never attempted on B. -/
theorem dispatch_partial_failure (ctrl : ugreen_leds_t) (A B : led_type_pair)
    (op1 op2 : ops_pair) (w : World)
    (hA1 : (op1.2.apply ctrl A w).1 = 0)
    (hA2 : (op2.2.apply ctrl A (op1.2.apply ctrl A w).2).1 = 0)
    (hB1 : (op1.2.apply ctrl B (op2.2.apply ctrl A (op1.2.apply ctrl A w).2).2).1 ≠ 0) :
    dispatch ctrl [A, B] [op1, op2] w =
      ⟨.returned (-1),
        (op1.2.apply ctrl B (op2.2.apply ctrl A (op1.2.apply ctrl A w).2).2).2.cerr
          "failed to change status!"⟩ ∧
    (dispatch ctrl [A, B] [op1, op2] w).world.calls =
      w.calls ++ op1.2.calls A ++ op2.2.calls A ++ op1.2.calls B := by
  have hres : dispatch ctrl [A, B] [op1, op2] w =
      ⟨.returned (-1),
        (op1.2.apply ctrl B (op2.2.apply ctrl A (op1.2.apply ctrl A w).2).2).2.cerr
          "failed to change status!"⟩ := by
    simp [dispatch, run_ops, hA1, hA2, hB1]
  refine ⟨hres, ?_⟩
  rw [hres]
  simp [World.cerr, apply_calls]

/-- Witness of the amended C3: the operations `-on`, `-off` on power and disk1, the
controller failing on disk1. -/
theorem dispatch_partial_failure_witness :
    (dispatch disk1_failing_controller
        [("power", .UGREEN_LED_POWER), ("disk1", .UGREEN_LED_DISK1)]
        [(true, .onoff 1), (true, .onoff 0)] World.init).world.calls =
      [.set_onoff .UGREEN_LED_POWER 1, .set_onoff .UGREEN_LED_POWER 0,
        .set_onoff .UGREEN_LED_DISK1 1] :=
  (dispatch_partial_failure disk1_failing_controller ("power", .UGREEN_LED_POWER)
    ("disk1", .UGREEN_LED_DISK1) (true, .onoff 1) (true, .onoff 0) World.init
    (by decide) (by decide) (by decide)).2

/-! ## Validation failures and the controller -/

theorem parse_integer_error (str : String) (low high : Int) (w : World) (o : Outcome)
    (h : parse_integer str low high w = .error o) :
    o.world.calls = w.calls ∧ (o.ending = .exited (-1) ∨ ∃ e, o.ending = .uncaught e) := by
  unfold parse_integer at h
  split at h
  · cases h; exact ⟨rfl, Or.inr ⟨_, rfl⟩⟩
  · split at h
    · cases h; exact ⟨rfl, Or.inl rfl⟩
    · split at h
      · cases h; exact ⟨rfl, Or.inl rfl⟩
      · cases h

theorem parse_timed_error (front a b : String) (w : World) (o : Outcome)
    (h : parse_timed front a b w = .error o) :
    o.world.calls = w.calls ∧ (o.ending = .exited (-1) ∨ ∃ e, o.ending = .uncaught e) := by
  unfold parse_timed at h
  split at h
  · rename_i o1 h1; cases h; exact parse_integer_error _ _ _ _ _ h1
  · split at h
    · rename_i o1 h1; cases h; exact parse_integer_error _ _ _ _ _ h1
    · cases h

theorem parse_color_error (a b c : String) (w : World) (o : Outcome)
    (h : parse_color a b c w = .error o) :
    o.world.calls = w.calls ∧ (o.ending = .exited (-1) ∨ ∃ e, o.ending = .uncaught e) := by
  unfold parse_color at h
  split at h
  · rename_i o1 h1; cases h; exact parse_integer_error _ _ _ _ _ h1
  · split at h
    · rename_i o1 h1; cases h; exact parse_integer_error _ _ _ _ _ h1
    · split at h
      · rename_i o1 h1; cases h; exact parse_integer_error _ _ _ _ _ h1
      · cases h

theorem parse_brightness_error (a : String) (w : World) (o : Outcome)
    (h : parse_brightness a w = .error o) :
    o.world.calls = w.calls ∧ (o.ending = .exited (-1) ∨ ∃ e, o.ending = .uncaught e) := by
  unfold parse_brightness at h
  split at h
  · rename_i o1 h1; cases h; exact parse_integer_error _ _ _ _ _ h1
  · cases h

theorem parse_ops_error (args : List String) (ops_seq : List ops_pair) (w : World)
    (o : Outcome) (h : parse_ops args ops_seq w = .error o) :
    o.world.calls = w.calls ∧ (o.ending = .exited (-1) ∨ ∃ e, o.ending = .uncaught e) := by
  induction args, ops_seq, w using parse_ops.induct
  all_goals
    first
      | (simp [parse_ops] at h; done)
      | (rename_i ih; rw [parse_ops] at h; exact ih h)
      | (rename_i h1 ih; rw [parse_ops, h1] at h; exact ih h)
      | (rename_i h1; rw [parse_ops, h1] at h; cases h
         first
           | exact parse_timed_error _ _ _ _ _ h1
           | exact parse_color_error _ _ _ _ _ h1
           | exact parse_brightness_error _ _ _ h1)
      | (rw [parse_ops] at h <;> first | (cases h; exact ⟨rfl, Or.inl rfl⟩) | assumption)

theorem select_all_world (ctrl : ugreen_leds_t) (m leds : List led_type_pair) (w : World) :
    (select_all ctrl m leds w).2 =
      { w with calls := w.calls ++ m.map (fun v => Call.get_status v.2) } := by
  induction m generalizing leds w with
  | nil => simp [select_all]
  | cons v m ih =>
    simp only [select_all]
    split <;> simp [ih, get_status, World.call]

theorem selection_queries_cons (front : String) (args : List String) :
    selection_queries (front :: args) =
      if valid_selector front then
        (if front = "all" then all_queries else []) ++ selection_queries args
      else [] := by
  unfold selection_queries
  by_cases h : valid_selector front = true <;> simp [List.takeWhile, h]

theorem select_ok_world (ctrl : ugreen_leds_t) (args : List String) (leds : List led_type_pair)
    (w : World) (r : List led_type_pair × List String × World)
    (h : select ctrl args leds w = .ok r) :
    r.2.2 = { w with calls := w.calls ++ selection_queries args } := by
  induction args, leds, w using select.induct ctrl with
  | case1 leds w => simp [select] at h; simp [← h, selection_queries]
  | case2 front args leds w hf =>
    simp [select, hf] at h
    simp [← h, selection_queries_cons, valid_selector, hf]
  | case3 args leds w r1 hf ih =>
    rw [select] at h
    simp only [hf, if_true, Bool.false_eq_true, if_false] at h
    have := ih h
    rw [this, select_all_world]
    have hv : valid_selector "all" = true := by decide
    simp [selection_queries_cons, hv, all_queries]
  | case4 front args leds w hf hall o ho =>
    rw [select] at h
    simp [hf, hall, ho] at h
  | case5 front args leds w hf hall led_type hl ih =>
    rw [select] at h
    simp only [hf, hall, hl, if_false, Bool.false_eq_true] at h
    have := ih h
    rw [this]
    have hv : valid_selector front = true := by
      unfold get_led_type at hl
      split at hl
      · cases hl
      · rename_i t ht; simp [valid_selector, hf, ht]
    simp [selection_queries_cons, hv, hall]

theorem select_error (ctrl : ugreen_leds_t) (args : List String) (leds : List led_type_pair)
    (w : World) (o : Outcome) (h : select ctrl args leds w = .error o) :
    o.ending = .exited (-1) ∧ o.world.calls = w.calls ++ selection_queries args := by
  induction args, leds, w using select.induct ctrl with
  | case1 leds w => simp [select] at h
  | case2 front args leds w hf => simp [select, hf] at h
  | case3 args leds w r1 hf ih =>
    rw [select] at h
    simp only [hf, if_true, Bool.false_eq_true, if_false] at h
    have := ih h
    rw [this.2, select_all_world]
    have hv : valid_selector "all" = true := by decide
    simp [selection_queries_cons, hv, all_queries, this.1]
  | case4 front args leds w hf hall o1 ho =>
    rw [select] at h
    simp only [hf, hall, ho, if_false, Bool.false_eq_true] at h
    cases h
    unfold get_led_type at ho
    split at ho
    · rename_i hn
      cases ho
      simp [selection_queries_cons, valid_selector, hn, hall, show_help_and_exit, show_help,
        World.cerr]
    · cases ho
  | case5 front args leds w hf hall led_type hl ih =>
    rw [select] at h
    simp only [hf, hall, hl, if_false, Bool.false_eq_true] at h
    have := ih h
    have hv : valid_selector front = true := by
      unfold get_led_type at hl
      split at hl
      · cases hl
      · rename_i t ht; simp [valid_selector, hf, ht]
    simp [selection_queries_cons, hv, hall, this]

theorem discover_ok (cs : List (Option ugreen_leds_t)) (cur : Option ugreen_leds_t) (w : World)
    (r : Option ugreen_leds_t × World) (h : discover cs cur w = .ok r) :
    r.2.calls = w.calls ∧ r.2.err = w.err := by
  induction cs generalizing cur w with
  | nil => simp [discover] at h; simp [← h]
  | cons creator cs ih =>
    cases creator with
    | none => simp [discover] at h
    | some c =>
      simp only [discover] at h
      split at h
      · cases h; simp [World.cout]
      · have := ih _ _ h
        simpa using this

theorem discover_error (cs : List (Option ugreen_leds_t)) (cur : Option ugreen_leds_t)
    (w : World) (o : Outcome) (h : discover cs cur w = .error o) :
    o.ending = .null_deref ∧ o.world.calls = w.calls := by
  induction cs generalizing cur w with
  | nil => simp [discover] at h
  | cons creator cs ih =>
    cases creator with
    | none => simp [discover] at h; simp [← h]
    | some c =>
      simp only [discover] at h
      split at h
      · cases h
      · have := ih _ _ h
        simpa using this

theorem dispatch_ending (ctrl : ugreen_leds_t) (leds : List led_type_pair)
    (ops_seq : List ops_pair) (w : World) :
    (dispatch ctrl leds ops_seq w).ending = .returned 0 ∨
      (dispatch ctrl leds ops_seq w).ending = .returned (-1) := by
  by_cases h : (dispatch ctrl leds ops_seq w).ending = .returned 0
  · exact Or.inl h
  · obtain ⟨_, _, _, _, _, _, _, _, _, _, _, _, _, hres⟩ :=
      dispatch_error_split ctrl leds ops_seq w h
    exact Or.inr (by rw [hres])

theorem run_validation_failure (ctrl : ugreen_leds_t) (args : List String) (w : World)
    (h : (run ctrl args w).ending.is_validation_failure = true) :
    (run ctrl args w).world.calls = w.calls ++ selection_queries args ∧
    ((run ctrl args w).ending = .exited (-1) ∨ ∃ e, (run ctrl args w).ending = .uncaught e) := by
  unfold run at h ⊢
  cases hs : select ctrl args [] w with
  | error o =>
    have := select_error ctrl args [] w o hs
    simp only []
    exact ⟨this.2, Or.inl this.1⟩
  | ok r =>
    obtain ⟨leds, rest, w1⟩ := r
    have hw := select_ok_world ctrl args [] w _ hs
    simp only [hs] at h ⊢
    by_cases hr : rest = []
    · simp [hr, Termination.is_validation_failure] at h
    · simp only [hr, if_false] at h ⊢
      cases hp : parse_ops rest [] w1 with
      | error o =>
        have := parse_ops_error rest [] w1 o hp
        simp only [] at hw
        simp only []
        refine ⟨?_, this.2⟩
        rw [this.1, hw]
      | ok ops_seq =>
        simp only [hp] at h
        rcases dispatch_ending ctrl leds ops_seq w1 with hd | hd <;>
          simp [hd, Termination.is_validation_failure] at h

theorem main_validation_failure (creators : Creators) (args : List String)
    (h : (main creators args).ending.is_validation_failure = true) :
    (main creators args).world.calls = selection_queries args ∧
    ((main creators args).ending = .exited (-1) ∨
      ∃ e, (main creators args).ending = .uncaught e) := by
  unfold main at h ⊢
  by_cases ha : args = []
  · simp [ha, Termination.is_validation_failure] at h
  · simp only [ha, if_false] at h ⊢
    cases hd : discover [creators.create_socket_controller, creators.create_i2c_controller,
        creators.create_kmod_controller] none World.init with
    | error o =>
      have := discover_error _ _ _ _ hd
      simp [hd, this.1, Termination.is_validation_failure] at h
    | ok r =>
      obtain ⟨cur, w⟩ := r
      have hw := discover_ok _ _ _ _ hd
      cases cur with
      | none => simp [hd, Termination.is_validation_failure] at h
      | some ctrl =>
        simp only [hd] at h ⊢
        have := run_validation_failure ctrl args w h
        simp only [] at hw
        rw [hw.1] at this
        simpa [World.init] using this

theorem selection_queries_get_status (args : List String) :
    ∀ c ∈ selection_queries args, ∃ v ∈ led_name_map, c = .get_status v.2 := by
  intro c hc
  simp only [selection_queries, List.mem_flatMap] at hc
  obtain ⟨tok, _, hc⟩ := hc
  split at hc
  · simp only [all_queries, List.mem_map] at hc
    obtain ⟨v, hv, rfl⟩ := hc
    exact ⟨v, hv, rfl⟩
  · simp at hc

theorem selection_queries_without_all (args : List String) (h : "all" ∉ args) :
    selection_queries args = [] := by
  induction args with
  | nil => rfl
  | cons front args ih =>
    have h1 : front ≠ "all" := fun e => h (by simp [e])
    have h2 : "all" ∉ args := fun e => h (by simp [e])
    rw [selection_queries_cons]
    split
    · simp [h1, ih h2]
    · rfl

/-- C4, as stated, fails: for the tokens "all" "bogus" and for "all" "-brightness"
"300" the run ends in `show_help_and_exit` with code -1, but the ten availability
queries of "all" have been made on the controller before the invalid token is
reached. -/
theorem queries_before_validation_failure :
    (main good_creators ["all", "bogus"]).ending = .exited (-1) ∧
    (main good_creators ["all", "bogus"]).world.calls =
      [.get_status .UGREEN_LED_DISK1, .get_status .UGREEN_LED_DISK2,
        .get_status .UGREEN_LED_DISK3, .get_status .UGREEN_LED_DISK4,
        .get_status .UGREEN_LED_DISK5, .get_status .UGREEN_LED_DISK6,
        .get_status .UGREEN_LED_DISK7, .get_status .UGREEN_LED_DISK8,
        .get_status .UGREEN_LED_NETDEV, .get_status .UGREEN_LED_POWER] ∧
    (main good_creators ["all", "-brightness", "300"]).ending = .exited (-1) ∧
    (main good_creators ["all", "-brightness", "300"]).world.calls ≠ [] := by
  decide

/-- C4, amended: when a run ends on a validation failure, the calls made on the
controller are exactly the availability queries of the tokens "all" accepted by the
selection loop before the failure: each is a `get_status` of a catalog entry, there is
none when no token is "all", and no other call has been made; a run that ends through
`show_help_and_exit` has the nonzero exit code -1. -/
theorem validation_failure_calls (creators : Creators) (args : List String)
    (h : (main creators args).ending.is_validation_failure = true) :
    (main creators args).world.calls = selection_queries args ∧
    (∀ c ∈ (main creators args).world.calls, ∃ v ∈ led_name_map, c = .get_status v.2) ∧
    ("all" ∉ args → (main creators args).world.calls = []) ∧
    (∀ code, (main creators args).ending = .exited code → code = -1) := by
  obtain ⟨hc, he⟩ := main_validation_failure creators args h
  refine ⟨hc, ?_, ?_, ?_⟩
  · rw [hc]; exact selection_queries_get_status args
  · intro hn; rw [hc]; exact selection_queries_without_all args hn
  · intro code hcode
    rcases he with he | ⟨e, he⟩
    · rw [he] at hcode; cases hcode; rfl
    · rw [he] at hcode; cases hcode

/-- Witness of the amended C4: the tokens "power" "all" "bogus". -/
theorem validation_failure_calls_witness :
    (main good_creators ["power", "all", "bogus"]).world.calls =
      selection_queries ["power", "all", "bogus"] :=
  (validation_failure_calls good_creators ["power", "all", "bogus"] (by decide)).1

/-! ## Validation comes before dispatch -/

theorem main_eq_run (s i k : ugreen_leds_t) (args : List String) (h : args ≠ []) :
    ∃ ctrl w0, main ⟨some s, some i, some k⟩ args = run ctrl args w0 ∧ w0.calls = [] ∧
      w0.err = [] := by
  unfold main
  simp only [h, if_false]
  by_cases hs : s.start = 0
  · exact ⟨s, ⟨[s.name], [], ["Using " ++ s.name ++ " controller."], []⟩,
      by simp [discover, hs, World.cout, World.init], rfl, rfl⟩
  · by_cases hi : i.start = 0
    · exact ⟨i, ⟨[s.name, i.name], [], ["Using " ++ i.name ++ " controller."], []⟩,
        by simp [discover, hs, hi, World.cout, World.init], rfl, rfl⟩
    · by_cases hk : k.start = 0
      · exact ⟨k, ⟨[s.name, i.name, k.name], [], ["Using " ++ k.name ++ " controller."], []⟩,
          by simp [discover, hs, hi, hk, World.cout, World.init], rfl, rfl⟩
      · exact ⟨k, ⟨[s.name, i.name, k.name], [], [], []⟩,
          by simp [discover, hs, hi, hk, World.init], rfl, rfl⟩

/-- C5: a run that ends on a validation failure has issued no mutating call
(`set_onoff`, `set_blink`, `set_breath`, `set_oneshot`, `set_rgb`, `set_brightness`,
`shot`). With any three controllers, the arguments "power" "-brightness" "300" end in
`show_help_and_exit` with code -1 after the diagnostic "Err: 300 is not in [0, 255]"
and with no call on the controller, and so do "power" "-on" "-brightness" "300": the
`set_onoff` of the valid `-on` is not issued. -/
theorem no_mutation_before_validation (creators : Creators) (args : List String)
    (s i k : ugreen_leds_t) :
    ((main creators args).ending.is_validation_failure = true →
      ∀ c ∈ (main creators args).world.calls, c.is_mutating = false) ∧
    ((main ⟨some s, some i, some k⟩ ["power", "-brightness", "300"]).ending = .exited (-1) ∧
      (main ⟨some s, some i, some k⟩ ["power", "-brightness", "300"]).world.calls = [] ∧
      (main ⟨some s, some i, some k⟩ ["power", "-brightness", "300"]).world.err =
        ["Err: 300 is not in [0, 255]", usage]) ∧
    ((main ⟨some s, some i, some k⟩ ["power", "-on", "-brightness", "300"]).ending =
        .exited (-1) ∧
      (main ⟨some s, some i, some k⟩ ["power", "-on", "-brightness", "300"]).world.calls = [] ∧
      (main ⟨some s, some i, some k⟩ ["power", "-on", "-brightness", "300"]).world.err =
        ["Err: 300 is not in [0, 255]", usage]) := by
  refine ⟨?_, ?_, ?_⟩
  · intro h c hc
    rw [(main_validation_failure creators args h).1] at hc
    obtain ⟨v, _, rfl⟩ := selection_queries_get_status args c hc
    rfl
  · obtain ⟨ctrl, w0, hm, hc, he⟩ := main_eq_run s i k ["power", "-brightness", "300"] (by simp)
    have hr : run ctrl ["power", "-brightness", "300"] w0 =
        ⟨.exited (-1), (w0.cerr "Err: 300 is not in [0, 255]").cerr usage⟩ := rfl
    rw [hm, hr]
    simp [World.cerr, hc, he]
  · obtain ⟨ctrl, w0, hm, hc, he⟩ :=
      main_eq_run s i k ["power", "-on", "-brightness", "300"] (by simp)
    have hr : run ctrl ["power", "-on", "-brightness", "300"] w0 =
        ⟨.exited (-1), (w0.cerr "Err: 300 is not in [0, 255]").cerr usage⟩ := rfl
    rw [hm, hr]
    simp [World.cerr, hc, he]

/-- Witness of C5: the tokens "all" "-on" "-brightness" "300" on controllers that
never fail. -/
theorem no_mutation_before_validation_witness :
    ∀ c ∈ (main good_creators ["all", "-on", "-brightness", "300"]).world.calls,
      c.is_mutating = false :=
  (no_mutation_before_validation good_creators ["all", "-on", "-brightness", "300"]
    good_controller good_controller good_controller).1 (by decide)

/-! ## Integer operands -/

theorem isdigit_not_special (c : Char) (h : isdigit c = true) :
    isspace c = false ∧ c ≠ '-' ∧ c ≠ '+' := by
  refine ⟨?_, ?_, ?_⟩
  · cases hs : isspace c with
    | false => rfl
    | true =>
      simp only [isspace, Bool.or_eq_true, decide_eq_true_eq] at hs
      rcases hs with ((((hs | hs) | hs) | hs) | hs) | hs <;> subst hs <;> revert h <;> decide
  · intro e; subst e; revert h; decide
  · intro e; subst e; revert h; decide

theorem stoi_digits (ds : List Char) (hne : ds ≠ []) (hd : ds.all isdigit = true) :
    stoi ds =
      if (digits_value ds : Int) > INT_MAX then .error .out_of_range
      else .ok ((digits_value ds : Int), ds.length) := by
  obtain ⟨c, t, rfl⟩ := List.exists_cons_of_ne_nil hne
  have hc : isdigit c = true := by simp at hd; exact hd.1
  obtain ⟨hsp, hm, hp⟩ := isdigit_not_special c hc
  have htw : (c :: t).takeWhile isdigit = c :: t := by
    rw [List.takeWhile_eq_self_iff]
    intro x hx
    exact List.all_eq_true.mp hd x hx
  have hneg : ¬ ((digits_value (c :: t) : Int) < INT_MIN) := by
    unfold INT_MIN; omega
  simp [stoi, List.takeWhile, List.dropWhile, hsp, hm, hp, htw, hneg]

theorem stoi_minus (ds : List Char) (hne : ds ≠ []) (hd : ds.all isdigit = true) :
    stoi ('-' :: ds) =
      if -(digits_value ds : Int) < INT_MIN then .error .out_of_range
      else .ok (-(digits_value ds : Int), ds.length + 1) := by
  have htw : ds.takeWhile isdigit = ds := by
    rw [List.takeWhile_eq_self_iff]
    intro x hx
    exact List.all_eq_true.mp hd x hx
  have hsp : isspace '-' = false := by decide
  have hpos : ¬ (-(digits_value ds : Int) > INT_MAX) := by
    unfold INT_MAX; omega
  simp [stoi, List.takeWhile, List.dropWhile, hsp, htw, hne, hpos, Nat.add_comm]

theorem stoi_plus (ds : List Char) (hne : ds ≠ []) (hd : ds.all isdigit = true) :
    stoi ('+' :: ds) =
      if (digits_value ds : Int) > INT_MAX then .error .out_of_range
      else .ok ((digits_value ds : Int), ds.length + 1) := by
  have htw : ds.takeWhile isdigit = ds := by
    rw [List.takeWhile_eq_self_iff]
    intro x hx
    exact List.all_eq_true.mp hd x hx
  have hsp : isspace '+' = false := by decide
  have hneg : ¬ ((digits_value ds : Int) < INT_MIN) := by
    unfold INT_MIN; omega
  simp [stoi, List.takeWhile, List.dropWhile, hsp, htw, hne, hneg, Nat.add_comm]

theorem stoi_literal (s : String) (v : Int) (h : literal_value s = some v) :
    stoi s.data =
      if v < INT_MIN ∨ v > INT_MAX then .error .out_of_range else .ok (v, s.length) := by
  unfold literal_value at h
  split at h
  · rename_i ds hs
    split at h
    · rename_i hds
      cases h
      have hpos : ¬ (-(digits_value ds : Int) > INT_MAX) := by unfold INT_MAX; omega
      rw [hs, stoi_minus ds hds.1 hds.2]
      simp [hpos, String.length, hs]
    · cases h
  · rename_i ds hs
    split at h
    · rename_i hds
      cases h
      have hneg : ¬ ((digits_value ds : Int) < INT_MIN) := by unfold INT_MIN; omega
      rw [hs, stoi_plus ds hds.1 hds.2]
      simp [hneg, String.length, hs]
    · cases h
  · split at h
    · rename_i hds
      cases h
      have hneg : ¬ ((digits_value s.data : Int) < INT_MIN) := by unfold INT_MIN; omega
      rw [stoi_digits s.data hds.1 hds.2]
      simp only [hneg, false_or]
      rfl
    · cases h

theorem parse_integer_literal (s : String) (v low high : Int) (w : World)
    (h : literal_value s = some v) (hlow : INT_MIN ≤ low) (hhigh : high ≤ INT_MAX) :
    (low ≤ v ∧ v ≤ high → parse_integer s low high w = .ok v) ∧
    (¬ (low ≤ v ∧ v ≤ high) → ∃ o, parse_integer s low high w = .error o) := by
  have hst := stoi_literal s v h
  constructor
  · intro hr
    have h1 : ¬ (v < INT_MIN ∨ v > INT_MAX) := by omega
    have h2 : ¬ (v < low ∨ v > high) := by omega
    rw [if_neg h1] at hst
    simp [parse_integer, hst, h2]
  · intro hr
    by_cases h1 : v < INT_MIN ∨ v > INT_MAX
    · rw [if_pos h1] at hst
      exact ⟨_, by simp [parse_integer, hst]; rfl⟩
    · rw [if_neg h1] at hst
      have h2 : v < low ∨ v > high := by omega
      exact ⟨_, by simp [parse_integer, hst, h2]; rfl⟩

theorem narrow16_exact (v : Int) (h0 : 0 ≤ v) (h1 : v ≤ 65535) :
    ((narrow16 v : Nat) : Int) = v ∧ narrow16 v = v.toNat := by
  unfold narrow16
  have : v % 65536 = v := Int.emod_eq_of_lt h0 (by omega)
  rw [this]
  exact ⟨Int.toNat_of_nonneg h0, rfl⟩

theorem narrow8_exact (v : Int) (h0 : 0 ≤ v) (h1 : v ≤ 255) :
    ((narrow8 v : Nat) : Int) = v ∧ narrow8 v = v.toNat := by
  unfold narrow8
  have : v % 256 = v := Int.emod_eq_of_lt h0 (by omega)
  rw [this]
  exact ⟨Int.toNat_of_nonneg h0, rfl⟩

theorem parse_timed_literal (front a b : String) (va vb : Int) (w : World)
    (ha : literal_value a = some va) (hb : literal_value b = some vb) :
    (0 ≤ va ∧ va ≤ 65535 ∧ 0 ≤ vb ∧ vb ≤ 65535 →
      parse_timed front a b w =
        .ok (true, .timed (front = "-blink") (front = "-oneshot") va.toNat vb.toNat)) ∧
    (¬ (0 ≤ va ∧ va ≤ 65535 ∧ 0 ≤ vb ∧ vb ≤ 65535) →
      ∃ o, parse_timed front a b w = .error o) := by
  have pa := parse_integer_literal a va 0 0xffff w ha (by decide) (by decide)
  have pb := parse_integer_literal b vb 0 0xffff w hb (by decide) (by decide)
  constructor
  · intro ⟨h1, h2, h3, h4⟩
    simp only [parse_timed, pa.1 ⟨h1, h2⟩, pb.1 ⟨h3, h4⟩, (narrow16_exact va h1 h2).2,
      (narrow16_exact vb h3 h4).2]
  · intro hn
    by_cases hva : 0 ≤ va ∧ va ≤ 65535
    · have hvb : ¬ (0 ≤ vb ∧ vb ≤ 65535) := fun hvb => hn ⟨hva.1, hva.2, hvb.1, hvb.2⟩
      obtain ⟨o, ho⟩ := pb.2 hvb
      exact ⟨o, by simp only [parse_timed, pa.1 hva, ho]⟩
    · obtain ⟨o, ho⟩ := pa.2 hva
      exact ⟨o, by simp only [parse_timed, ho]⟩

/-- C6: for `-blink`, `-breath` and `-oneshot` and each of the two operands, "65535"
is accepted and "65536", "-1" and "12x" are rejected with the range or the
not-an-integer diagnostic; for operands that are plain decimal integer literals the
flag is accepted exactly when both values lie in [0, 65535], and then the callback
carries exactly these values, which are the arguments of the `set_blink`,
`set_breath` or `set_oneshot` call it issues: narrowing to 16 bits changes nothing. -/
theorem timing_operand_range (flag : String)
    (hflag : flag = "-blink" ∨ flag = "-breath" ∨ flag = "-oneshot") :
    (∀ (ops_seq : List ops_pair) (w : World),
      parse_ops [flag, "65535", "65535"] ops_seq w =
        .ok (ops_seq ++ [(true, .timed (flag = "-blink") (flag = "-oneshot") 65535 65535)]) ∧
      ∀ p ∈ [("65536", "Err: 65536 is not in [0, 65535]"),
          ("-1", "Err: -1 is not in [0, 65535]"), ("12x", "Err: 12x is not an integer.")],
        parse_ops [flag, p.1, "0"] ops_seq w = .error (show_help_and_exit (w.cerr p.2)) ∧
        parse_ops [flag, "0", p.1] ops_seq w = .error (show_help_and_exit (w.cerr p.2))) ∧
    (∀ (a b : String) (va vb : Int) (ops_seq : List ops_pair) (w : World),
      literal_value a = some va → literal_value b = some vb →
      (0 ≤ va ∧ va ≤ 65535 ∧ 0 ≤ vb ∧ vb ≤ 65535 →
        parse_ops [flag, a, b] ops_seq w =
          .ok (ops_seq ++
            [(true, .timed (flag = "-blink") (flag = "-oneshot") va.toNat vb.toNat)]) ∧
        ((narrow16 va : Nat) : Int) = va ∧ ((narrow16 vb : Nat) : Int) = vb) ∧
      (¬ (0 ≤ va ∧ va ≤ 65535 ∧ 0 ≤ vb ∧ vb ≤ 65535) →
        ∃ o, parse_ops [flag, a, b] ops_seq w = .error o)) ∧
    (∀ (ctrl : ugreen_leds_t) (led : led_type_pair) (w : World) (t_on t_off : Nat),
      ((Callback.timed true false t_on t_off).apply ctrl led w).2.calls =
        w.calls ++ [.set_blink led.2 t_on t_off] ∧
      ((Callback.timed false false t_on t_off).apply ctrl led w).2.calls =
        w.calls ++ [.set_breath led.2 t_on t_off] ∧
      ((Callback.timed false true t_on t_off).apply ctrl led w).2.calls =
        w.calls ++ [.set_onoff led.2 1, .set_oneshot led.2 t_on t_off]) := by
  have hstep : ∀ (a b : String) (ops_seq : List ops_pair) (w : World),
      parse_ops [flag, a, b] ops_seq w =
        match parse_timed flag a b w with
        | .error o => .error o
        | .ok fn_pair => .ok (ops_seq ++ [fn_pair]) := by
    intro a b ops_seq w
    rcases hflag with h | h | h <;> subst h <;> rw [parse_ops] <;> rfl
  refine ⟨?_, ?_, ?_⟩
  · intro ops_seq w
    refine ⟨by rcases hflag with h | h | h <;> subst h <;> rfl, ?_⟩
    intro p hp
    simp only [List.mem_cons, List.mem_singleton, List.not_mem_nil, or_false] at hp
    rcases hp with rfl | rfl | rfl <;> rcases hflag with h | h | h <;> subst h <;>
      exact ⟨rfl, rfl⟩
  · intro a b va vb ops_seq w ha hb
    have ht := parse_timed_literal flag a b va vb w ha hb
    constructor
    · intro hr
      refine ⟨?_, (narrow16_exact va hr.1 hr.2.1).1, (narrow16_exact vb hr.2.2.1 hr.2.2.2).1⟩
      rw [hstep, ht.1 hr]
    · intro hn
      obtain ⟨o, ho⟩ := ht.2 hn
      exact ⟨o, by rw [hstep, ho]⟩
  · intro ctrl led w t_on t_off
    exact ⟨rfl, rfl, by simp [Callback.apply, invoke, World.call]⟩

/-- Witness of C6: `-blink 100 +200`. -/
theorem timing_operand_range_witness :
    parse_ops ["-blink", "100", "+200"] [] World.init =
      .ok ([] ++ [(true, .timed (("-blink" : String) = "-blink")
        (("-blink" : String) = "-oneshot") (100 : Int).toNat (200 : Int).toNat)]) :=
  (((timing_operand_range "-blink" (Or.inl rfl)).2.1 "100" "+200" 100 200 [] World.init
    (by decide) (by decide)).1 (by decide)).1

theorem parse_brightness_literal (a : String) (va : Int) (w : World)
    (ha : literal_value a = some va) :
    (0 ≤ va ∧ va ≤ 255 → parse_brightness a w = .ok (true, .brightness va.toNat)) ∧
    (¬ (0 ≤ va ∧ va ≤ 255) → ∃ o, parse_brightness a w = .error o) := by
  have pa := parse_integer_literal a va 0 0xff w ha (by decide) (by decide)
  constructor
  · intro h
    simp only [parse_brightness, pa.1 h, (narrow8_exact va h.1 h.2).2]
  · intro hn
    obtain ⟨o, ho⟩ := pa.2 hn
    exact ⟨o, by simp only [parse_brightness, ho]⟩

theorem parse_color_literal (a b c : String) (va vb vc : Int) (w : World)
    (ha : literal_value a = some va) (hb : literal_value b = some vb)
    (hc : literal_value c = some vc) :
    ((0 ≤ va ∧ va ≤ 255) ∧ (0 ≤ vb ∧ vb ≤ 255) ∧ (0 ≤ vc ∧ vc ≤ 255) →
      parse_color a b c w = .ok (true, .rgb va.toNat vb.toNat vc.toNat)) ∧
    (¬ ((0 ≤ va ∧ va ≤ 255) ∧ (0 ≤ vb ∧ vb ≤ 255) ∧ (0 ≤ vc ∧ vc ≤ 255)) →
      ∃ o, parse_color a b c w = .error o) := by
  have pa := parse_integer_literal a va 0 0xff w ha (by decide) (by decide)
  have pb := parse_integer_literal b vb 0 0xff w hb (by decide) (by decide)
  have pc := parse_integer_literal c vc 0 0xff w hc (by decide) (by decide)
  constructor
  · intro ⟨h1, h2, h3⟩
    simp only [parse_color, pa.1 h1, pb.1 h2, pc.1 h3, (narrow8_exact va h1.1 h1.2).2,
      (narrow8_exact vb h2.1 h2.2).2, (narrow8_exact vc h3.1 h3.2).2]
  · intro hn
    by_cases hva : 0 ≤ va ∧ va ≤ 255
    · by_cases hvb : 0 ≤ vb ∧ vb ≤ 255
      · have hvc : ¬ (0 ≤ vc ∧ vc ≤ 255) := fun hvc => hn ⟨hva, hvb, hvc⟩
        obtain ⟨o, ho⟩ := pc.2 hvc
        exact ⟨o, by simp only [parse_color, pa.1 hva, pb.1 hvb, ho]⟩
      · obtain ⟨o, ho⟩ := pb.2 hvb
        exact ⟨o, by simp only [parse_color, pa.1 hva, ho]⟩
    · obtain ⟨o, ho⟩ := pa.2 hva
      exact ⟨o, by simp only [parse_color, ho]⟩

/-- C7: for `-color` (each of its three operands) and `-brightness`, "0" and "255" are
accepted and "256" is rejected with the range diagnostic; for operands that are plain
decimal integer literals the flag is accepted exactly when every value lies in
[0, 255], and then the callback carries exactly these values, which are the arguments
of the `set_rgb` or `set_brightness` call it issues: narrowing to 8 bits changes
nothing. -/
theorem color_operand_range (ops_seq : List ops_pair) (w : World) :
    (parse_ops ["-color", "0", "255", "0"] ops_seq w = .ok (ops_seq ++ [(true, .rgb 0 255 0)]) ∧
      parse_ops ["-color", "255", "0", "255"] ops_seq w =
        .ok (ops_seq ++ [(true, .rgb 255 0 255)]) ∧
      parse_ops ["-color", "256", "0", "0"] ops_seq w =
        .error (show_help_and_exit (w.cerr "Err: 256 is not in [0, 255]")) ∧
      parse_ops ["-color", "0", "256", "0"] ops_seq w =
        .error (show_help_and_exit (w.cerr "Err: 256 is not in [0, 255]")) ∧
      parse_ops ["-color", "0", "0", "256"] ops_seq w =
        .error (show_help_and_exit (w.cerr "Err: 256 is not in [0, 255]")) ∧
      parse_ops ["-brightness", "0"] ops_seq w = .ok (ops_seq ++ [(true, .brightness 0)]) ∧
      parse_ops ["-brightness", "255"] ops_seq w = .ok (ops_seq ++ [(true, .brightness 255)]) ∧
      parse_ops ["-brightness", "256"] ops_seq w =
        .error (show_help_and_exit (w.cerr "Err: 256 is not in [0, 255]"))) ∧
    (∀ (a b c : String) (va vb vc : Int),
      literal_value a = some va → literal_value b = some vb → literal_value c = some vc →
      ((0 ≤ va ∧ va ≤ 255) ∧ (0 ≤ vb ∧ vb ≤ 255) ∧ (0 ≤ vc ∧ vc ≤ 255) →
        parse_ops ["-color", a, b, c] ops_seq w =
          .ok (ops_seq ++ [(true, .rgb va.toNat vb.toNat vc.toNat)]) ∧
        ((narrow8 va : Nat) : Int) = va ∧ ((narrow8 vb : Nat) : Int) = vb ∧
        ((narrow8 vc : Nat) : Int) = vc) ∧
      (¬ ((0 ≤ va ∧ va ≤ 255) ∧ (0 ≤ vb ∧ vb ≤ 255) ∧ (0 ≤ vc ∧ vc ≤ 255)) →
        ∃ o, parse_ops ["-color", a, b, c] ops_seq w = .error o)) ∧
    (∀ (a : String) (va : Int), literal_value a = some va →
      (0 ≤ va ∧ va ≤ 255 →
        parse_ops ["-brightness", a] ops_seq w = .ok (ops_seq ++ [(true, .brightness va.toNat)]) ∧
        ((narrow8 va : Nat) : Int) = va) ∧
      (¬ (0 ≤ va ∧ va ≤ 255) → ∃ o, parse_ops ["-brightness", a] ops_seq w = .error o)) ∧
    (∀ (ctrl : ugreen_leds_t) (led : led_type_pair) (w1 : World) (R G B brightness : Nat),
      ((Callback.rgb R G B).apply ctrl led w1).2.calls = w1.calls ++ [.set_rgb led.2 R G B] ∧
      ((Callback.brightness brightness).apply ctrl led w1).2.calls =
        w1.calls ++ [.set_brightness led.2 brightness]) := by
  have hcolor : ∀ (a b c : String),
      parse_ops ["-color", a, b, c] ops_seq w =
        match parse_color a b c w with
        | .error o => .error o
        | .ok fn_pair => .ok (ops_seq ++ [fn_pair]) := by
    intro a b c
    rw [parse_ops]; rfl
  have hbright : ∀ (a : String),
      parse_ops ["-brightness", a] ops_seq w =
        match parse_brightness a w with
        | .error o => .error o
        | .ok fn_pair => .ok (ops_seq ++ [fn_pair]) := by
    intro a
    rw [parse_ops]; rfl
  refine ⟨⟨rfl, rfl, rfl, rfl, rfl, rfl, rfl, rfl⟩, ?_, ?_, ?_⟩
  · intro a b c va vb vc ha hb hc
    have ht := parse_color_literal a b c va vb vc w ha hb hc
    constructor
    · intro hr
      refine ⟨?_, (narrow8_exact va hr.1.1 hr.1.2).1, (narrow8_exact vb hr.2.1.1 hr.2.1.2).1,
        (narrow8_exact vc hr.2.2.1 hr.2.2.2).1⟩
      rw [hcolor, ht.1 hr]
    · intro hn
      obtain ⟨o, ho⟩ := ht.2 hn
      exact ⟨o, by rw [hcolor, ho]⟩
  · intro a va ha
    have ht := parse_brightness_literal a va w ha
    constructor
    · intro hr
      refine ⟨?_, (narrow8_exact va hr.1 hr.2).1⟩
      rw [hbright, ht.1 hr]
    · intro hn
      obtain ⟨o, ho⟩ := ht.2 hn
      exact ⟨o, by rw [hbright, ho]⟩
  · intro ctrl led w1 R G B brightness
    exact ⟨rfl, rfl⟩

/-- Witness of C7: `-color 10 020 255` and `-brightness 7`. -/
theorem color_operand_range_witness :
    parse_ops ["-color", "10", "020", "255"] [] World.init =
      .ok ([] ++ [(true, .rgb (10 : Int).toNat (20 : Int).toNat (255 : Int).toNat)]) ∧
    parse_ops ["-brightness", "7"] [] World.init =
      .ok ([] ++ [(true, .brightness (7 : Int).toNat)]) :=
  ⟨(((color_operand_range [] World.init).2.1 "10" "020" "255" 10 20 255
      (by decide) (by decide) (by decide)).1 (by decide)).1,
    (((color_operand_range [] World.init).2.2.1 "7" 7 (by decide)).1 (by decide)).1⟩

/-! ## Failures of the integer conversion -/

/-- C8, evaluated on the code: an operand for which `std::stoi` performs no conversion
("abc", or the flag "-on" in operand position) or whose value does not fit an `int`
("99999999999") ends the run through the uncaught exception, with no diagnostic and
no usage text on `std::cerr`; `show_help_and_exit` is not reached. -/
theorem stoi_exception_uncaught :
    main good_creators ["power", "-blink", "abc", "100"] =
      ⟨.uncaught .invalid_argument, ⟨["i2c"], [], ["Using i2c controller."], []⟩⟩ ∧
    main good_creators ["power", "-blink", "100", "-on"] =
      ⟨.uncaught .invalid_argument, ⟨["i2c"], [], ["Using i2c controller."], []⟩⟩ ∧
    main good_creators ["power", "-brightness", "99999999999"] =
      ⟨.uncaught .out_of_range, ⟨["i2c"], [], ["Using i2c controller."], []⟩⟩ ∧
    parse_integer "abc" 0 0xffff World.init = .error ⟨.uncaught .invalid_argument, World.init⟩ ∧
    parse_integer "12x" 0 0xffff World.init =
      .error (show_help_and_exit (World.init.cerr "Err: 12x is not an integer.")) := by
  refine ⟨by decide, by decide, by decide, rfl, rfl⟩

/-! ## Missing operands -/

/-- C9, evaluated on the code: with fewer tokens than required after the flag, the
parser ends in `show_help_and_exit` (code -1) after one diagnostic, without parsing an
operand and without returning an operation sequence. For `-color` and `-brightness`
the diagnostic names the flag; for `-blink`, `-breath` and `-oneshot` it is the same
text, which names `-blink` and `-breath` and does not contain `-oneshot`. -/
theorem missing_operands (rest : List String) (ops_seq : List ops_pair) (w : World) :
    (rest.length < 2 →
      ∀ flag, flag = "-blink" ∨ flag = "-breath" ∨ flag = "-oneshot" →
        parse_ops (flag :: rest) ops_seq w =
          .error ⟨.exited (-1),
            (w.cerr "Err: -blink / -breath requires 2 parameters").cerr usage⟩) ∧
    (rest.length < 3 →
      parse_ops ("-color" :: rest) ops_seq w =
        .error ⟨.exited (-1), (w.cerr "Err: -color requires 3 parameters").cerr usage⟩) ∧
    (rest.length < 1 →
      parse_ops ("-brightness" :: rest) ops_seq w =
        .error ⟨.exited (-1), (w.cerr "Err: -brightness requires 1 parameter").cerr usage⟩) ∧
    "-blink".data <:+: "Err: -blink / -breath requires 2 parameters".data ∧
    "-breath".data <:+: "Err: -blink / -breath requires 2 parameters".data ∧
    ¬ ("-oneshot".data <:+: "Err: -blink / -breath requires 2 parameters".data) ∧
    "-color".data <:+: "Err: -color requires 3 parameters".data ∧
    "-brightness".data <:+: "Err: -brightness requires 1 parameter".data := by
  refine ⟨?_, ?_, ?_, by decide, by decide, by decide, by decide, by decide⟩
  · intro h flag hflag
    match rest, h with
    | [], _ => rcases hflag with e | e | e <;> subst e <;> rfl
    | [a], _ => rcases hflag with e | e | e <;> subst e <;> rfl
  · intro h
    match rest, h with
    | [], _ => rfl
    | [a], _ => rfl
    | [a, b], _ => rfl
  · intro h
    match rest, h with
    | [], _ => rfl

/-- Witness of C9: `-oneshot 100`, after `-on`. -/
theorem missing_operands_witness :
    parse_ops ("-oneshot" :: ["100"]) [(true, .onoff 1)] World.init =
      .error ⟨.exited (-1),
        (World.init.cerr "Err: -blink / -breath requires 2 parameters").cerr usage⟩ :=
  (missing_operands ["100"] [(true, .onoff 1)] World.init).1 (by decide) "-oneshot"
    (Or.inr (Or.inr rfl))

/-! ## Selection by name -/

theorem led_name_map_sorted :
    led_name_map =
      [("disk1", .UGREEN_LED_DISK1), ("disk2", .UGREEN_LED_DISK2),
        ("disk3", .UGREEN_LED_DISK3), ("disk4", .UGREEN_LED_DISK4),
        ("disk5", .UGREEN_LED_DISK5), ("disk6", .UGREEN_LED_DISK6),
        ("disk7", .UGREEN_LED_DISK7), ("disk8", .UGREEN_LED_DISK8),
        ("netdev", .UGREEN_LED_NETDEV), ("power", .UGREEN_LED_POWER)] := by
  decide

theorem catalog_lookup :
    ∀ p ∈ led_name_map_init,
      led_name_map_find p.1 = some p.2 ∧ is_flag p.1 = false ∧ p.1 ≠ "all" := by
  decide

theorem lookup_unknown (tok : String) (h : ∀ p ∈ led_name_map_init, p.1 ≠ tok) :
    led_name_map_find tok = none := by
  simp only [led_name_map_init, List.mem_cons, List.mem_singleton, forall_eq_or_imp,
    forall_eq, List.not_mem_nil, false_implies, implies_true, and_true] at h
  obtain ⟨h1, h2, h3, h4, h5, h6, h7, h8, h9, h10⟩ := h
  have e : ∀ k : String, k ≠ tok → (tok == k) = false := by
    intro k hk
    exact beq_eq_false_iff_ne.mpr (Ne.symm hk)
  simp only [led_name_map_find, led_name_map_sorted, List.lookup, e _ h1, e _ h2, e _ h3,
    e _ h4, e _ h5, e _ h6, e _ h7, e _ h8, e _ h9, e _ h10]

theorem select_names (ctrl : ugreen_leds_t) (sel : List led_type_pair) (rest : List String)
    (leds : List led_type_pair) (w : World) (h : ∀ p ∈ sel, p ∈ led_name_map_init) :
    select ctrl (sel.map (fun p => p.1) ++ rest) leds w = select ctrl rest (leds ++ sel) w := by
  induction sel generalizing leds with
  | nil => simp
  | cons p sel ih =>
    obtain ⟨hf, hflag, hall⟩ := catalog_lookup p (h p (by simp))
    have := ih (leds ++ [p]) (fun q hq => h q (by simp [hq]))
    simp only [List.map_cons, List.cons_append, select, hflag, hall, get_led_type, hf,
      Bool.false_eq_true, if_false]
    simpa using this

/-- C10: every name of the catalog, given alone, yields exactly one target, the pair
of the name and its catalog identifier; a list of catalog names given before the first
flag-marked token (or up to the end of the tokens) yields their pairs in command-line
order, repeated names kept, without any call on the controller; and a token that is
not flag-marked, not "all" and not in the catalog ends the run in `show_help_and_exit`
after the diagnostic "Err: unknown LED name". -/
theorem select_catalog_names (ctrl : ugreen_leds_t) (w : World) :
    (∀ p ∈ led_name_map_init, select ctrl [p.1] [] w = .ok ([p], [], w)) ∧
    (∀ (sel : List led_type_pair) (rest : List String),
      (∀ p ∈ sel, p ∈ led_name_map_init) →
      (rest = [] ∨ ∃ front args, rest = front :: args ∧ is_flag front = true) →
      select ctrl (sel.map (fun p => p.1) ++ rest) [] w = .ok (sel, rest, w)) ∧
    (∀ (sel : List led_type_pair) (tok : String) (rest : List String),
      (∀ p ∈ sel, p ∈ led_name_map_init) →
      is_flag tok = false → tok ≠ "all" → (∀ p ∈ led_name_map_init, p.1 ≠ tok) →
      select ctrl (sel.map (fun p => p.1) ++ tok :: rest) [] w =
        .error ⟨.exited (-1), (w.cerr ("Err: unknown LED name " ++ tok)).cerr usage⟩) := by
  have hgen : ∀ (sel : List led_type_pair) (rest : List String),
      (∀ p ∈ sel, p ∈ led_name_map_init) →
      (rest = [] ∨ ∃ front args, rest = front :: args ∧ is_flag front = true) →
      select ctrl (sel.map (fun p => p.1) ++ rest) [] w = .ok (sel, rest, w) := by
    intro sel rest hsel hrest
    rw [select_names ctrl sel rest [] w hsel]
    rcases hrest with rfl | ⟨front, args, rfl, hf⟩
    · simp [select]
    · simp [select, hf]
  refine ⟨?_, hgen, ?_⟩
  · intro p hp
    have := hgen [p] [] (by simpa using hp) (Or.inl rfl)
    simpa using this
  · intro sel tok rest hsel hflag hall hun
    rw [select_names ctrl sel (tok :: rest) [] w hsel]
    simp [select, hflag, hall, get_led_type, lookup_unknown tok hun, show_help_and_exit,
      show_help]

/-- Witness of C10: `disk2 power disk2 -on`, and the unknown name `disk9`. -/
theorem select_catalog_names_witness :
    select good_controller
        ([("disk2", led_type_t.UGREEN_LED_DISK2), ("power", led_type_t.UGREEN_LED_POWER),
          ("disk2", led_type_t.UGREEN_LED_DISK2)].map (fun p => p.1) ++ ["-on"]) []
        World.init =
      .ok ([("disk2", .UGREEN_LED_DISK2), ("power", .UGREEN_LED_POWER),
        ("disk2", .UGREEN_LED_DISK2)], ["-on"], World.init) ∧
    select good_controller
        ([("power", led_type_t.UGREEN_LED_POWER)].map (fun p => p.1) ++ "disk9" :: ["-on"]) []
        World.init =
      .error ⟨.exited (-1), (World.init.cerr ("Err: unknown LED name " ++ "disk9")).cerr usage⟩ :=
  ⟨(select_catalog_names good_controller World.init).2.1 _ ["-on"] (by decide)
      (Or.inr ⟨"-on", [], rfl, by decide⟩),
    (select_catalog_names good_controller World.init).2.2 _ "disk9" ["-on"] (by decide)
      (by decide) (by decide) (by decide)⟩

/-! ## The selector "all" -/

theorem select_all_filter (ctrl : ugreen_leds_t) (avail : led_type_t → Bool)
    (havail : ∀ hist id, (ctrl.status hist id).is_available = avail id)
    (m leds : List led_type_pair) (w : World) :
    select_all ctrl m leds w =
      (leds ++ m.filter (fun v => avail v.2),
        { w with calls := w.calls ++ m.map (fun v => Call.get_status v.2) }) := by
  induction m generalizing leds w with
  | nil => simp [select_all]
  | cons v m ih =>
    simp only [select_all, get_status, havail]
    cases hv : avail v.2 <;> simp [ih, hv, World.call]

theorem select_at_flag (ctrl : ugreen_leds_t) (rest : List String) (leds : List led_type_pair)
    (w : World) (h : rest = [] ∨ ∃ front args, rest = front :: args ∧ is_flag front = true) :
    select ctrl rest leds w = .ok (leds, rest, w) := by
  rcases h with rfl | ⟨front, args, rfl, hf⟩
  · simp [select]
  · simp [select, hf]

/-- C11: for a controller whose availability is the function `avail`, the token "all"
yields exactly the entries of the catalog that report available, each once, in the
iteration order of `led_name_map` (disk1, ..., disk8, netdev, power), wherever "all"
stands among the names of the command line; `get_status` is queried once for each of
the ten entries, in that order. -/
theorem select_all_available (ctrl : ugreen_leds_t) (avail : led_type_t → Bool)
    (havail : ∀ hist id, (ctrl.status hist id).is_available = avail id) (w : World) :
    (∀ (sel1 sel2 : List led_type_pair) (rest : List String),
      (∀ p ∈ sel1, p ∈ led_name_map_init) → (∀ p ∈ sel2, p ∈ led_name_map_init) →
      (rest = [] ∨ ∃ front args, rest = front :: args ∧ is_flag front = true) →
      select ctrl (sel1.map (fun p => p.1) ++ "all" :: (sel2.map (fun p => p.1) ++ rest)) [] w =
        .ok (sel1 ++ led_name_map.filter (fun v => avail v.2) ++ sel2, rest,
          { w with calls := w.calls ++ all_queries })) ∧
    led_name_map =
      [("disk1", .UGREEN_LED_DISK1), ("disk2", .UGREEN_LED_DISK2),
        ("disk3", .UGREEN_LED_DISK3), ("disk4", .UGREEN_LED_DISK4),
        ("disk5", .UGREEN_LED_DISK5), ("disk6", .UGREEN_LED_DISK6),
        ("disk7", .UGREEN_LED_DISK7), ("disk8", .UGREEN_LED_DISK8),
        ("netdev", .UGREEN_LED_NETDEV), ("power", .UGREEN_LED_POWER)] ∧
    all_queries =
      [.get_status .UGREEN_LED_DISK1, .get_status .UGREEN_LED_DISK2,
        .get_status .UGREEN_LED_DISK3, .get_status .UGREEN_LED_DISK4,
        .get_status .UGREEN_LED_DISK5, .get_status .UGREEN_LED_DISK6,
        .get_status .UGREEN_LED_DISK7, .get_status .UGREEN_LED_DISK8,
        .get_status .UGREEN_LED_NETDEV, .get_status .UGREEN_LED_POWER] ∧
    (led_name_map.filter (fun v => avail v.2)).Nodup ∧
    (∀ v, v ∈ led_name_map.filter (fun v => avail v.2) ↔ v ∈ led_name_map ∧ avail v.2 = true) := by
  refine ⟨?_, by decide, by decide, ?_, ?_⟩
  · intro sel1 sel2 rest h1 h2 hrest
    have hflag : is_flag "all" = false := by decide
    rw [select_names ctrl sel1 _ [] w h1, select]
    simp only [hflag, Bool.false_eq_true, if_false, if_true]
    rw [select_all_filter ctrl avail havail, select_names ctrl sel2 rest _ _ h2,
      select_at_flag ctrl rest _ _ hrest]
    simp [all_queries]
  · exact List.Nodup.filter _ (by decide)
  · intro v
    simp [List.mem_filter]

/-- Witness of C11: `netdev all disk1 -on` on a controller that reports disk2 and power
as available. -/
theorem select_all_available_witness :
    select two_leds_controller
        ([("netdev", led_type_t.UGREEN_LED_NETDEV)].map (fun p => p.1) ++
          "all" :: ([("disk1", led_type_t.UGREEN_LED_DISK1)].map (fun p => p.1) ++ ["-on"]))
        [] World.init =
      .ok ([("netdev", .UGREEN_LED_NETDEV)] ++
          led_name_map.filter (fun v => (two_leds_controller.status [] v.2).is_available) ++
          [("disk1", .UGREEN_LED_DISK1)], ["-on"],
        { World.init with calls := World.init.calls ++ all_queries }) ∧
    led_name_map.filter (fun v => (two_leds_controller.status [] v.2).is_available) =
      [("disk2", .UGREEN_LED_DISK2), ("power", .UGREEN_LED_POWER)] :=
  ⟨(select_all_available two_leds_controller
      (fun id => (two_leds_controller.status [] id).is_available) (fun _ _ => rfl)
      World.init).1 _ _ ["-on"] (by decide) (by decide) (Or.inr ⟨"-on", [], rfl, by decide⟩),
    by decide⟩

/-! ## Controller discovery -/

theorem discover_three (s i k : ugreen_leds_t) :
    discover [some s, some i, some k] none World.init =
      .ok (some (active_controller s i k), discovered_world s i k) := by
  by_cases hs : s.start = 0
  · simp [discover, active_controller, discovered_world, hs, World.cout, World.init]
  · by_cases hi : i.start = 0
    · simp [discover, active_controller, discovered_world, hs, hi, World.cout, World.init]
    · by_cases hk : k.start = 0
      · simp [discover, active_controller, discovered_world, hs, hi, hk, World.cout, World.init]
      · simp [discover, active_controller, discovered_world, hs, hi, hk, World.init]

theorem main_run_active (s i k : ugreen_leds_t) (args : List String) (h : args ≠ []) :
    main ⟨some s, some i, some k⟩ args =
      run (active_controller s i k) args (discovered_world s i k) := by
  unfold main
  simp only [h, if_false, discover_three]

theorem discovered_world_fresh (s i k : ugreen_leds_t) :
    (discovered_world s i k).calls = [] ∧ (discovered_world s i k).err = [] := by
  unfold discovered_world
  split
  · exact ⟨rfl, rfl⟩
  · split
    · exact ⟨rfl, rfl⟩
    · split <;> exact ⟨rfl, rfl⟩

/-- C12, evaluated on the code: the first controller in the order socket, i2c, kmod
whose `start()` returns 0 is used for the rest of the run and no later one is
started. When every `start()` fails, `leds_controller` still holds the kmod
controller, the test `!leds_controller` is false, no diagnostic is written, and the
tokens are interpreted on the kmod controller: with three controllers that fail to
start, `power -on` issues `set_onoff` and returns 0. -/
theorem discovery_priority (s i k : ugreen_leds_t) (args : List String) (hne : args ≠ []) :
    (s.start = 0 →
      main ⟨some s, some i, some k⟩ args =
        run s args ⟨[s.name], [], ["Using " ++ s.name ++ " controller."], []⟩) ∧
    (s.start ≠ 0 → i.start = 0 →
      main ⟨some s, some i, some k⟩ args =
        run i args ⟨[s.name, i.name], [], ["Using " ++ i.name ++ " controller."], []⟩) ∧
    (s.start ≠ 0 → i.start ≠ 0 → k.start = 0 →
      main ⟨some s, some i, some k⟩ args =
        run k args
          ⟨[s.name, i.name, k.name], [], ["Using " ++ k.name ++ " controller."], []⟩) ∧
    (s.start ≠ 0 → i.start ≠ 0 → k.start ≠ 0 →
      main ⟨some s, some i, some k⟩ args =
        run k args ⟨[s.name, i.name, k.name], [], [], []⟩) ∧
    main dead_creators ["power", "-on"] =
      ⟨.returned 0, ⟨["socket", "i2c", "kmod"], [.set_onoff .UGREEN_LED_POWER 1], [], []⟩⟩ := by
  refine ⟨?_, ?_, ?_, ?_, by decide⟩
  · intro hs
    rw [main_run_active s i k args hne]
    simp [active_controller, discovered_world, hs]
  · intro hs hi
    rw [main_run_active s i k args hne]
    simp [active_controller, discovered_world, hs, hi]
  · intro hs hi hk
    rw [main_run_active s i k args hne]
    simp [active_controller, discovered_world, hs, hi, hk]
  · intro hs hi hk
    rw [main_run_active s i k args hne]
    simp [active_controller, discovered_world, hs, hi, hk]

/-- Witness of C12: the socket controller fails to start and the i2c controller
starts. -/
theorem discovery_priority_witness :
    main ⟨some (dead_controller "socket"), some good_controller, some good_controller⟩
        ["power"] =
      run good_controller ["power"]
        ⟨[(dead_controller "socket").name, good_controller.name], [],
          ["Using " ++ good_controller.name ++ " controller."], []⟩ :=
  (discovery_priority (dead_controller "socket") good_controller good_controller ["power"]
    (by decide)).2.1 (by decide) (by decide)

/-! ## Status display -/

theorem show_leds_info_world (ctrl : ugreen_leds_t) (leds : List led_type_pair) (w : World) :
    show_leds_info ctrl leds w =
      { w with
        calls := w.calls ++ leds.map (fun led => Call.get_status led.2)
        out := w.out ++ status_lines ctrl w.calls leds } := by
  induction leds generalizing w with
  | nil => simp [show_leds_info, status_lines]
  | cons led leds ih =>
    simp [show_leds_info, status_lines, ih, get_status, World.call, World.cout]

theorem status_lines_length (ctrl : ugreen_leds_t) (hist : List Call)
    (leds : List led_type_pair) : (status_lines ctrl hist leds).length = leds.length := by
  induction leds generalizing hist with
  | nil => rfl
  | cons led leds ih => simp [status_lines, ih]

theorem status_lines_snapshot (ctrl : ugreen_leds_t) (snap : led_type_t → led_data_t)
    (hsnap : ∀ hist id, ctrl.status hist id = snap id) (hist : List Call)
    (leds : List led_type_pair) :
    status_lines ctrl hist leds = leds.map (fun led => led_info_line led.1 (snap led.2)) := by
  induction leds generalizing hist with
  | nil => rfl
  | cons led leds ih => simp [status_lines, ih, hsnap]

theorem select_valid (ctrl : ugreen_leds_t) (args : List String) (leds : List led_type_pair)
    (w : World) (h : ∀ t ∈ args, valid_selector t = true) :
    ∃ leds1 w1, select ctrl args leds w = .ok (leds1, [], w1) := by
  induction args generalizing leds w with
  | nil => exact ⟨leds, w, rfl⟩
  | cons t args ih =>
    have ht := h t (by simp)
    have hrest : ∀ t ∈ args, valid_selector t = true := fun u hu => h u (by simp [hu])
    simp only [valid_selector, Bool.and_eq_true, Bool.not_eq_true', Bool.or_eq_true,
      decide_eq_true_eq] at ht
    obtain ⟨hf, hsel⟩ := ht
    by_cases hall : t = "all"
    · subst hall
      rw [select]
      simp only [hf, Bool.false_eq_true, if_false, if_true]
      exact ih _ _ hrest
    · have hsome : (led_name_map_find t).isSome = true := by
        rcases hsel with hsel | hsel
        · exact absurd hsel hall
        · exact hsel
      obtain ⟨id, hid⟩ := Option.isSome_iff_exists.mp hsome
      rw [select]
      simp only [hf, hall, Bool.false_eq_true, if_false, get_led_type, hid]
      exact ih _ _ hrest

/-- C13: a nonempty token list made only of valid selection tokens ends with
`return 0` after `show_leds_info` on the selected targets: one line on `stdout` per
target, in target order, built from the target's name and the snapshot `get_status`
returns for it; the only calls on the controller are `get_status` queries, none is
mutating, and nothing is written to `stderr`. -/
theorem status_display (s i k : ugreen_leds_t) (args : List String) (hne : args ≠ [])
    (hval : ∀ t ∈ args, valid_selector t = true) :
    ∃ leds w1,
      select (active_controller s i k) args [] (discovered_world s i k) = .ok (leds, [], w1) ∧
      main ⟨some s, some i, some k⟩ args =
        ⟨.returned 0, show_leds_info (active_controller s i k) leds w1⟩ ∧
      (main ⟨some s, some i, some k⟩ args).world.out =
        (discovered_world s i k).out ++ status_lines (active_controller s i k) w1.calls leds ∧
      (status_lines (active_controller s i k) w1.calls leds).length = leds.length ∧
      (∀ snap : led_type_t → led_data_t,
        (∀ hist id, (active_controller s i k).status hist id = snap id) →
        status_lines (active_controller s i k) w1.calls leds =
          leds.map (fun led => led_info_line led.1 (snap led.2))) ∧
      (main ⟨some s, some i, some k⟩ args).world.calls =
        selection_queries args ++ leds.map (fun led => Call.get_status led.2) ∧
      (∀ c ∈ (main ⟨some s, some i, some k⟩ args).world.calls, c.is_mutating = false) ∧
      (main ⟨some s, some i, some k⟩ args).world.err = [] := by
  obtain ⟨leds, w1, hsel⟩ :=
    select_valid (active_controller s i k) args [] (discovered_world s i k) hval
  have hw1 := select_ok_world _ _ _ _ _ hsel
  simp only [] at hw1
  have hfresh := discovered_world_fresh s i k
  have hmain : main ⟨some s, some i, some k⟩ args =
      ⟨.returned 0, show_leds_info (active_controller s i k) leds w1⟩ := by
    rw [main_run_active s i k args hne]
    simp [run, hsel]
  have hcalls : (main ⟨some s, some i, some k⟩ args).world.calls =
      selection_queries args ++ leds.map (fun led => Call.get_status led.2) := by
    rw [hmain, show_leds_info_world, hw1]
    simp [hfresh.1]
  refine ⟨leds, w1, hsel, hmain, ?_, status_lines_length _ _ _, ?_, hcalls, ?_, ?_⟩
  · rw [hmain, show_leds_info_world, hw1]
  · intro snap hsnap
    exact status_lines_snapshot _ snap hsnap _ _
  · intro c hc
    rw [hcalls, List.mem_append] at hc
    rcases hc with hc | hc
    · obtain ⟨v, _, rfl⟩ := selection_queries_get_status args c hc
      rfl
    · simp only [List.mem_map] at hc
      obtain ⟨led, _, rfl⟩ := hc
      rfl
  · rw [hmain, show_leds_info_world, hw1]
    exact hfresh.2

/-- Witness of C13: `disk1 power` on controllers that never fail. -/
theorem status_display_witness :
    (∃ leds w1,
      select (active_controller good_controller good_controller good_controller)
          ["disk1", "power"] []
          (discovered_world good_controller good_controller good_controller) =
        .ok (leds, [], w1) ∧
      main ⟨some good_controller, some good_controller, some good_controller⟩
          ["disk1", "power"] =
        ⟨.returned 0,
          show_leds_info (active_controller good_controller good_controller good_controller)
            leds w1⟩) ∧
    main ⟨some good_controller, some good_controller, some good_controller⟩
        ["disk1", "power"] =
      ⟨.returned 0,
        ⟨["i2c"], [.get_status .UGREEN_LED_DISK1, .get_status .UGREEN_LED_POWER],
          ["Using i2c controller.",
            "disk1: status = on, brightness = 255, color = RGB(255, 255, 255)",
            "power: status = on, brightness = 255, color = RGB(255, 255, 255)"], []⟩⟩ :=
  ⟨match status_display good_controller good_controller good_controller ["disk1", "power"]
      (by decide) (by decide) with
    | ⟨leds, w1, h1, h2, _⟩ => ⟨leds, w1, h1, h2⟩,
   by decide⟩

/-- C14: `show_leds_info` prints one line per entry. For an unavailable snapshot the
line is the name followed by ": unavailable or non-existent"; otherwise it is the name,
the mode text (off, on, blink, breath, and unknown for every other mode value), the
brightness and the three colour channels, and the timing suffix with `t_on` and
`t_off` follows exactly when the mode is blink or breath. -/
theorem status_line_format (name : String) (data : led_data_t) :
    (∀ (ctrl : ugreen_leds_t) (id : led_type_t) (w : World),
      show_leds_info ctrl [(name, id)] w =
        (w.call (.get_status id)).cout (led_info_line name (ctrl.status w.calls id))) ∧
    (data.is_available = false →
      led_info_line name data = name ++ ": unavailable or non-existent") ∧
    (data.is_available = true →
      led_info_line name data =
        name ++ ": status = " ++ op_mode_txt data.op_mode ++
          ", brightness = " ++ toString data.brightness ++
          ", color = RGB(" ++ toString data.color_r ++ ", " ++ toString data.color_g ++
          ", " ++ toString data.color_b ++ ")" ++
          (if data.op_mode = .blink ∨ data.op_mode = .breath then
            ", blink_on = " ++ toString data.t_on ++ " ms, blink_off = " ++
              toString data.t_off ++ " ms"
          else "")) ∧
    (op_mode_txt .off = "off" ∧ op_mode_txt .on = "on" ∧ op_mode_txt .blink = "blink" ∧
      op_mode_txt .breath = "breath" ∧ ∀ raw, op_mode_txt (.other raw) = "unknown") ∧
    (data.is_available = true →
      ((data.op_mode = .blink ∨ data.op_mode = .breath) ↔
        led_info_line name data ≠
          name ++ ": status = " ++ op_mode_txt data.op_mode ++
            ", brightness = " ++ toString data.brightness ++
            ", color = RGB(" ++ toString data.color_r ++ ", " ++ toString data.color_g ++
            ", " ++ toString data.color_b ++ ")")) := by
  refine ⟨?_, ?_, ?_, ⟨rfl, rfl, rfl, rfl, fun _ => rfl⟩, ?_⟩
  · intro ctrl id w
    rfl
  · intro h
    simp [led_info_line, h]
  · intro h
    by_cases hm : data.op_mode = .blink ∨ data.op_mode = .breath
    · simp only [led_info_line, h, hm, Bool.not_true, Bool.false_eq_true, if_false, if_true,
        String.append_assoc]
    · simp only [led_info_line, h, hm, Bool.not_true, Bool.false_eq_true, if_false,
        String.append_empty]
  · intro h
    by_cases hm : data.op_mode = .blink ∨ data.op_mode = .breath
    · simp only [hm, true_iff]
      intro heq
      have hl := congrArg String.length heq
      simp only [led_info_line, h, hm, Bool.not_true, Bool.false_eq_true, if_false, if_true,
        String.length_append] at hl
      have e1 : ", blink_on = ".length = 13 := by decide
      omega
    · simp only [hm, false_iff, not_not]
      simp only [led_info_line, h, hm, Bool.not_true, Bool.false_eq_true, if_false]

/-- Witness of C14: a blinking indicator and an unavailable one. -/
theorem status_line_format_witness :
    led_info_line "disk1" ⟨true, .blink, 10, 1, 2, 3, 500, 250⟩ =
      "disk1: status = blink, brightness = 10, color = RGB(1, 2, 3), " ++
        "blink_on = 500 ms, blink_off = 250 ms" ∧
    led_info_line "disk8" ⟨false, .off, 0, 0, 0, 0, 0, 0⟩ =
      "disk8: unavailable or non-existent" :=
  ⟨(status_line_format "disk1" ⟨true, .blink, 10, 1, 2, 3, 500, 250⟩).2.2.1 rfl,
    (status_line_format "disk8" ⟨false, .off, 0, 0, 0, 0, 0, 0⟩).2.1 rfl⟩

/-! ## One operation per flag -/

theorem segments_cons (w : World) (flag : String) (operands args : List String)
    (acc ops_seq : List ops_pair) (op : ops_pair)
    (ih : ∃ segs : List (String × List String × ops_pair),
      args = segs.flatMap (fun s => s.1 :: s.2.1) ∧
      ops_seq = (acc ++ [op]) ++ segs.map (fun s => s.2.2) ∧
      ∀ s ∈ segs, flag_arity s.1 = some s.2.1.length ∧
        parse_ops (s.1 :: s.2.1) [] w = .ok [s.2.2])
    (ha : flag_arity flag = some operands.length)
    (hp : parse_ops (flag :: operands) [] w = .ok [op]) :
    ∃ segs : List (String × List String × ops_pair),
      flag :: (operands ++ args) = segs.flatMap (fun s => s.1 :: s.2.1) ∧
      ops_seq = acc ++ segs.map (fun s => s.2.2) ∧
      ∀ s ∈ segs, flag_arity s.1 = some s.2.1.length ∧
        parse_ops (s.1 :: s.2.1) [] w = .ok [s.2.2] := by
  obtain ⟨segs, h1, h2, h3⟩ := ih
  refine ⟨(flag, operands, op) :: segs, ?_, ?_, ?_⟩
  · simp [h1]
  · simp [h2]
  · intro s hs
    rcases List.mem_cons.mp hs with rfl | hs
    · exact ⟨ha, hp⟩
    · exact h3 s hs

theorem parse_ops_segments (args : List String) (acc : List ops_pair) (w : World)
    (ops_seq : List ops_pair) (h : parse_ops args acc w = .ok ops_seq) :
    ∃ segs : List (String × List String × ops_pair),
      args = segs.flatMap (fun s => s.1 :: s.2.1) ∧
      ops_seq = acc ++ segs.map (fun s => s.2.2) ∧
      ∀ s ∈ segs, flag_arity s.1 = some s.2.1.length ∧
        parse_ops (s.1 :: s.2.1) [] w = .ok [s.2.2] := by
  induction args, acc, w using parse_ops.induct with
  | case1 acc w =>
    simp only [parse_ops, Except.ok.injEq] at h
    exact ⟨[], by simp, by simp [h], by simp⟩
  | case2 args acc w ih =>
    rw [parse_ops] at h
    exact segments_cons w "-on" [] args acc ops_seq _ (ih h) rfl rfl
  | case3 args acc w ih =>
    rw [parse_ops] at h
    exact segments_cons w "-off" [] args acc ops_seq _ (ih h) rfl rfl
  | case4 a b args acc w o h1 => rw [parse_ops, h1] at h; cases h
  | case5 a b args acc w fn_pair h1 ih =>
    rw [parse_ops, h1] at h
    exact segments_cons w "-blink" [a, b] args acc ops_seq _ (ih h) rfl
      (by rw [parse_ops, h1]; rfl)
  | case6 tail acc w hn => (rw [parse_ops] at h <;> first | cases h | exact hn)
  | case7 a b args acc w o h1 => rw [parse_ops, h1] at h; cases h
  | case8 a b args acc w fn_pair h1 ih =>
    rw [parse_ops, h1] at h
    exact segments_cons w "-breath" [a, b] args acc ops_seq _ (ih h) rfl
      (by rw [parse_ops, h1]; rfl)
  | case9 tail acc w hn => (rw [parse_ops] at h <;> first | cases h | exact hn)
  | case10 a b args acc w o h1 => rw [parse_ops, h1] at h; cases h
  | case11 a b args acc w fn_pair h1 ih =>
    rw [parse_ops, h1] at h
    exact segments_cons w "-oneshot" [a, b] args acc ops_seq _ (ih h) rfl
      (by rw [parse_ops, h1]; rfl)
  | case12 tail acc w hn => (rw [parse_ops] at h <;> first | cases h | exact hn)
  | case13 a b c args acc w o h1 => rw [parse_ops, h1] at h; cases h
  | case14 a b c args acc w fn_pair h1 ih =>
    rw [parse_ops, h1] at h
    exact segments_cons w "-color" [a, b, c] args acc ops_seq _ (ih h) rfl
      (by rw [parse_ops, h1]; rfl)
  | case15 tail acc w hn => (rw [parse_ops] at h <;> first | cases h | exact hn)
  | case16 a args acc w o h1 => rw [parse_ops, h1] at h; cases h
  | case17 a args acc w fn_pair h1 ih =>
    rw [parse_ops, h1] at h
    exact segments_cons w "-brightness" [a] args acc ops_seq _ (ih h) rfl
      (by rw [parse_ops, h1]; rfl)
  | case18 tail acc w hn => (rw [parse_ops] at h <;> first | cases h | exact hn)
  | case19 args acc w ih =>
    rw [parse_ops] at h
    exact segments_cons w "-status" [] args acc ops_seq _ (ih h) rfl rfl
  | case20 args acc w ih =>
    rw [parse_ops] at h
    exact segments_cons w "-shot" [] args acc ops_seq _ (ih h) rfl rfl
  | case21 front tail acc w =>
    rw [parse_ops] at h <;> first | cases h | assumption

/-- C15: a token list the parser accepts splits into consecutive segments, each a flag
followed by as many operand tokens as the flag takes; the operation sequence has one
operation per segment, in the same order, and the operation of a segment is the one
the parser yields for that segment alone, so it carries the operands that followed its
own flag. Repeated flags give repeated operations: `-on -off -on` gives three
`set_onoff` operations with arguments 1, 0, 1. -/
theorem one_operation_per_flag (args : List String) (w : World) (ops_seq : List ops_pair)
    (h : parse_ops args [] w = .ok ops_seq) :
    (∃ segs : List (String × List String × ops_pair),
      args = segs.flatMap (fun s => s.1 :: s.2.1) ∧
      ops_seq = segs.map (fun s => s.2.2) ∧
      ops_seq.length = segs.length ∧
      ∀ s ∈ segs, flag_arity s.1 = some s.2.1.length ∧
        parse_ops (s.1 :: s.2.1) [] w = .ok [s.2.2]) ∧
    (∀ (acc : List ops_pair) (w1 : World),
      parse_ops ["-on", "-off", "-on"] acc w1 =
        .ok (acc ++ [(true, .onoff 1), (true, .onoff 0), (true, .onoff 1)])) ∧
    (∀ (ctrl : ugreen_leds_t) (led : led_type_pair) (w1 : World) (st : Nat),
      (Callback.onoff st).apply ctrl led w1 =
        (ctrl.result w1.calls (.set_onoff led.2 st), w1.call (.set_onoff led.2 st))) := by
  refine ⟨?_, fun _ _ => ?_, fun _ _ _ _ => rfl⟩
  · obtain ⟨segs, h1, h2, h3⟩ := parse_ops_segments args [] w ops_seq h
    exact ⟨segs, h1, by simpa using h2, by simp [h2], h3⟩
  · simp [parse_ops]

/-- Witness of C15: `-on -blink 1 2 -on -color 1 2 3`. -/
theorem one_operation_per_flag_witness :
    ∃ segs : List (String × List String × ops_pair),
      ["-on", "-blink", "1", "2", "-on", "-color", "1", "2", "3"] =
        segs.flatMap (fun s => s.1 :: s.2.1) ∧
      [(true, Callback.onoff 1), (true, Callback.timed true false 1 2),
          (true, Callback.onoff 1), (true, Callback.rgb 1 2 3)] =
        segs.map (fun s => s.2.2) ∧
      [(true, Callback.onoff 1), (true, Callback.timed true false 1 2),
          (true, Callback.onoff 1), (true, Callback.rgb 1 2 3)].length = segs.length ∧
      ∀ s ∈ segs, flag_arity s.1 = some s.2.1.length ∧
        parse_ops (s.1 :: s.2.1) [] World.init = .ok [s.2.2] :=
  (one_operation_per_flag ["-on", "-blink", "1", "2", "-on", "-color", "1", "2", "3"]
    World.init _ rfl).1

/-! ## No argument -/

/-- C16: with no token after the program name `main` returns 0 after writing the usage
text to `stderr`, and nothing else happens: no controller is started, no call is made
on a controller, nothing is written to `stdout`. -/
theorem no_arguments (creators : Creators) :
    main creators [] = ⟨.returned 0, ⟨[], [], [], [usage]⟩⟩ := by
  rfl

/-! ## The timed operations -/

/-- C17: the callback of `-oneshot` issues `set_onoff(id, true)` and then
`set_oneshot(id, t_on, t_off)`, and returns the code of `set_oneshot` alone, so a
failing power-on call followed by a succeeding `set_oneshot` does not stop the
dispatch; the callbacks of `-blink` and `-breath` issue the single call `set_blink`,
respectively `set_breath`, and return its code. -/
theorem oneshot_two_calls (ctrl : ugreen_leds_t) (led : led_type_pair) (w : World)
    (t_on t_off : Nat) :
    (Callback.timed false true t_on t_off).apply ctrl led w =
      (ctrl.result (w.calls ++ [.set_onoff led.2 1]) (.set_oneshot led.2 t_on t_off),
        { w with calls := w.calls ++ [.set_onoff led.2 1, .set_oneshot led.2 t_on t_off] }) ∧
    (Callback.timed true false t_on t_off).apply ctrl led w =
      (ctrl.result w.calls (.set_blink led.2 t_on t_off),
        { w with calls := w.calls ++ [.set_blink led.2 t_on t_off] }) ∧
    (Callback.timed false false t_on t_off).apply ctrl led w =
      (ctrl.result w.calls (.set_breath led.2 t_on t_off),
        { w with calls := w.calls ++ [.set_breath led.2 t_on t_off] }) ∧
    (∀ (flag a b : String) (w1 : World) (op : ops_pair),
      parse_timed flag a b w1 = .ok op →
      ∃ v_on v_off, op = (true, .timed (flag = "-blink") (flag = "-oneshot") v_on v_off)) ∧
    (∀ (a b : String) (acc : List ops_pair) (w1 : World) (op : ops_pair),
      parse_timed "-oneshot" a b w1 = .ok op →
      parse_ops ["-oneshot", a, b] acc w1 = .ok (acc ++ [op]) ∧
      ∃ v_on v_off, op = (true, .timed false true v_on v_off)) ∧
    (∀ rest : List ops_pair,
      ctrl.result (w.calls ++ [.set_onoff led.2 1]) (.set_oneshot led.2 t_on t_off) = 0 →
      run_ops ctrl led ((true, .timed false true t_on t_off) :: rest) w =
        run_ops ctrl led rest
          { w with calls := w.calls ++ [.set_onoff led.2 1, .set_oneshot led.2 t_on t_off] }) ∧
    main ⟨some onoff_failing_controller, some onoff_failing_controller,
        some onoff_failing_controller⟩ ["power", "-oneshot", "1", "2", "-brightness", "5"] =
      ⟨.returned 0,
        ⟨["i2c"], [.set_onoff .UGREEN_LED_POWER 1, .set_oneshot .UGREEN_LED_POWER 1 2,
          .set_brightness .UGREEN_LED_POWER 5], ["Using i2c controller."], []⟩⟩ ∧
    onoff_failing_controller.result [] (.set_onoff .UGREEN_LED_POWER 1) ≠ 0 := by
  have hone : (Callback.timed false true t_on t_off).apply ctrl led w =
      (ctrl.result (w.calls ++ [.set_onoff led.2 1]) (.set_oneshot led.2 t_on t_off),
        { w with calls := w.calls ++ [.set_onoff led.2 1, .set_oneshot led.2 t_on t_off] }) := by
    simp [Callback.apply, invoke, World.call]
  have hshape : ∀ (flag a b : String) (w1 : World) (op : ops_pair),
      parse_timed flag a b w1 = .ok op →
      ∃ v_on v_off, op = (true, .timed (flag = "-blink") (flag = "-oneshot") v_on v_off) := by
    intro flag a b w1 op hop
    unfold parse_timed at hop
    split at hop
    · cases hop
    · split at hop
      · cases hop
      · cases hop
        exact ⟨_, _, rfl⟩
  refine ⟨hone, rfl, rfl, hshape, ?_, ?_, by decide, by decide⟩
  · intro a b acc w1 op hop
    refine ⟨by rw [parse_ops, hop]; rfl, ?_⟩
    obtain ⟨v_on, v_off, hv⟩ := hshape "-oneshot" a b w1 op hop
    exact ⟨v_on, v_off, by simpa using hv⟩
  · intro rest hz
    rw [run_ops, hone]
    simp [hz]

/-- Witness of C17: `-oneshot 1 2` then `-brightness 5` on a controller whose
`set_onoff` fails. -/
theorem oneshot_two_calls_witness :
    run_ops onoff_failing_controller ("power", .UGREEN_LED_POWER)
        ((true, .timed false true 1 2) :: [(true, .brightness 5)]) World.init =
      run_ops onoff_failing_controller ("power", .UGREEN_LED_POWER) [(true, .brightness 5)]
        { World.init with
          calls := World.init.calls ++
            [.set_onoff (("power", led_type_t.UGREEN_LED_POWER) : led_type_pair).2 1,
              .set_oneshot (("power", led_type_t.UGREEN_LED_POWER) : led_type_pair).2 1 2] } :=
  (oneshot_two_calls onoff_failing_controller ("power", .UGREEN_LED_POWER) World.init 1
    2).2.2.2.2.2.1 [(true, .brightness 5)] (by decide)

/-! ## Flags end the selection -/

theorem select_before_flag (ctrl : ugreen_leds_t) (pre rest : List String)
    (leds : List led_type_pair) (w : World) (hpre : ∀ t ∈ pre, is_flag t = false)
    (hrest : rest = [] ∨ ∃ front args, rest = front :: args ∧ is_flag front = true) :
    select ctrl (pre ++ rest) leds w =
      match select ctrl pre leds w with
      | .ok r => .ok (r.1, rest, r.2.2)
      | .error o => .error o := by
  induction pre generalizing leds w with
  | nil =>
    rw [List.nil_append, select_at_flag ctrl rest leds w hrest]
    rfl
  | cons t pre ih =>
    have ht := hpre t (by simp)
    have hp : ∀ u ∈ pre, is_flag u = false := fun u hu => hpre u (by simp [hu])
    rw [List.cons_append, select, select]
    simp only [ht, Bool.false_eq_true, if_false]
    by_cases hall : t = "all"
    · simp only [hall, if_true]
      exact ih _ _ hp
    · simp only [hall, if_false]
      cases hg : get_led_type t w with
      | error o => rfl
      | ok led_type => exact ih _ _ hp

theorem parse_ops_append (a b : List String) (acc : List ops_pair) (w : World)
    (ops_seq : List ops_pair) (h : parse_ops a acc w = .ok ops_seq) :
    parse_ops (a ++ b) acc w = parse_ops b ops_seq w := by
  induction a, acc, w using parse_ops.induct
  all_goals
    first
      | (simp only [parse_ops, Except.ok.injEq] at h; simp [h]; done)
      | (rename_i ih; rw [parse_ops] at h; rw [List.cons_append, parse_ops]; exact ih h)
      | (rename_i h1 ih; rw [parse_ops, h1] at h
         simp only [List.cons_append]
         rw [parse_ops, h1]; exact ih h)
      | (rename_i h1; rw [parse_ops, h1] at h; cases h)
      | (rw [parse_ops] at h <;> first | cases h | assumption)

theorem parse_ops_unknown (front : String) (args : List String) (acc : List ops_pair)
    (w : World) (h : flag_arity front = none) :
    parse_ops (front :: args) acc w =
      .error ⟨.exited (-1), (w.cerr ("Err: unknown parameter " ++ front)).cerr usage⟩ := by
  rw [parse_ops]
  · rfl
  all_goals
    intros
    subst_vars
    revert h
    decide

/-- C18: target selection reads the leading tokens only and stops at the first
flag-marked token: its result on a token list is its result on the tokens before the
first flag-marked one, the rest being left for the operation parser. After that point
a token in flag position that is none of `-on`, `-off`, `-blink`, `-breath`,
`-oneshot`, `-color`, `-brightness`, `-status`, `-shot` (an indicator name or "all"
included) ends the run in `show_help_and_exit` with code -1 after the diagnostic
"Err: unknown parameter"; `power -on disk1` ends so, with no call on the
controller. -/
theorem flags_end_selection (ctrl : ugreen_leds_t) (w : World) :
    (∀ (pre rest : List String) (leds : List led_type_pair),
      (∀ t ∈ pre, is_flag t = false) →
      (rest = [] ∨ ∃ front args, rest = front :: args ∧ is_flag front = true) →
      select ctrl (pre ++ rest) leds w =
        match select ctrl pre leds w with
        | .ok r => .ok (r.1, rest, r.2.2)
        | .error o => .error o) ∧
    (∀ (parsed : List String) (front : String) (args : List String)
        (acc ops_seq : List ops_pair),
      parse_ops parsed acc w = .ok ops_seq →
      front ∉ ["-on", "-off", "-blink", "-breath", "-oneshot", "-color", "-brightness",
        "-status", "-shot"] →
      parse_ops (parsed ++ front :: args) acc w =
        .error ⟨.exited (-1), (w.cerr ("Err: unknown parameter " ++ front)).cerr usage⟩) ∧
    ("all" ∉ ["-on", "-off", "-blink", "-breath", "-oneshot", "-color", "-brightness",
        "-status", "-shot"] ∧
      ∀ p ∈ led_name_map_init,
        p.1 ∉ ["-on", "-off", "-blink", "-breath", "-oneshot", "-color", "-brightness",
          "-status", "-shot"]) ∧
    run ctrl ["power", "-on", "disk1"] w =
      ⟨.exited (-1), (w.cerr "Err: unknown parameter disk1").cerr usage⟩ := by
  refine ⟨?_, ?_, ⟨by decide, by decide⟩, rfl⟩
  · intro pre rest leds hpre hrest
    exact select_before_flag ctrl pre rest leds w hpre hrest
  · intro parsed front args acc ops_seq hdone hfront
    have harity : flag_arity front = none := by
      simp only [List.mem_cons, List.mem_singleton, List.not_mem_nil, or_false, not_or] at hfront
      obtain ⟨h1, h2, h3, h4, h5, h6, h7, h8, h9⟩ := hfront
      simp [flag_arity, h1, h2, h3, h4, h5, h6, h7, h8, h9]
    rw [parse_ops_append parsed _ acc w ops_seq hdone]
    exact parse_ops_unknown front args ops_seq w harity

/-- Witness of C18: the tokens `disk1 power -color 1 2 3 all -on`. -/
theorem flags_end_selection_witness :
    select good_controller (["disk1", "power"] ++ ["-color", "1", "2", "3", "all", "-on"]) []
        World.init =
      (match select good_controller ["disk1", "power"] [] World.init with
        | .ok r => .ok (r.1, ["-color", "1", "2", "3", "all", "-on"], r.2.2)
        | .error o => .error o) ∧
    parse_ops (["-color", "1", "2", "3"] ++ "all" :: ["-on"]) [] World.init =
      .error ⟨.exited (-1),
        (World.init.cerr ("Err: unknown parameter " ++ "all")).cerr usage⟩ :=
  ⟨(flags_end_selection good_controller World.init).1 ["disk1", "power"]
      ["-color", "1", "2", "3", "all", "-on"] [] (by decide)
      (Or.inr ⟨"-color", ["1", "2", "3", "all", "-on"], rfl, by decide⟩),
    (flags_end_selection good_controller World.init).2.1 ["-color", "1", "2", "3"] "all"
      ["-on"] [] [(true, .rgb 1 2 3)] rfl (by decide)⟩

/-! ## Empty selection -/

theorem parse_integer_ok_world (str : String) (low high : Int) (w w1 : World) (x : Int)
    (h : parse_integer str low high w = .ok x) : parse_integer str low high w1 = .ok x := by
  cases hst : stoi str.data with
  | error e => simp [parse_integer, hst] at h
  | ok r =>
    obtain ⟨y, size⟩ := r
    simp only [parse_integer, hst] at h ⊢
    split_ifs at h ⊢
    exact h

theorem parse_timed_ok_world (front a b : String) (w w1 : World) (op : ops_pair)
    (h : parse_timed front a b w = .ok op) : parse_timed front a b w1 = .ok op := by
  cases ha : parse_integer a 0x0000 0xffff w with
  | error o => simp [parse_timed, ha] at h
  | ok t_on =>
    cases hb : parse_integer b 0x0000 0xffff w with
    | error o => simp [parse_timed, ha, hb] at h
    | ok t_off =>
      simp only [parse_timed, ha, hb] at h
      simp only [parse_timed, parse_integer_ok_world _ _ _ _ w1 _ ha,
        parse_integer_ok_world _ _ _ _ w1 _ hb]
      exact h

theorem parse_color_ok_world (a b c : String) (w w1 : World) (op : ops_pair)
    (h : parse_color a b c w = .ok op) : parse_color a b c w1 = .ok op := by
  cases ha : parse_integer a 0x00 0xff w with
  | error o => simp [parse_color, ha] at h
  | ok R =>
    cases hb : parse_integer b 0x00 0xff w with
    | error o => simp [parse_color, ha, hb] at h
    | ok G =>
      cases hc : parse_integer c 0x00 0xff w with
      | error o => simp [parse_color, ha, hb, hc] at h
      | ok B =>
        simp only [parse_color, ha, hb, hc] at h
        simp only [parse_color, parse_integer_ok_world _ _ _ _ w1 _ ha,
          parse_integer_ok_world _ _ _ _ w1 _ hb, parse_integer_ok_world _ _ _ _ w1 _ hc]
        exact h

theorem parse_brightness_ok_world (a : String) (w w1 : World) (op : ops_pair)
    (h : parse_brightness a w = .ok op) : parse_brightness a w1 = .ok op := by
  cases ha : parse_integer a 0x00 0xff w with
  | error o => simp [parse_brightness, ha] at h
  | ok v =>
    simp only [parse_brightness, ha] at h
    simp only [parse_brightness, parse_integer_ok_world _ _ _ _ w1 _ ha]
    exact h

theorem parse_ops_ok_world (args : List String) (acc : List ops_pair) (w w1 : World)
    (ops_seq : List ops_pair) (h : parse_ops args acc w = .ok ops_seq) :
    parse_ops args acc w1 = .ok ops_seq := by
  induction args, acc, w using parse_ops.induct
  all_goals
    first
      | (simp only [parse_ops, Except.ok.injEq] at h; simp [parse_ops, h]; done)
      | (rename_i ih; rw [parse_ops] at h; rw [parse_ops]; exact ih h)
      | (rename_i h1 ih; rw [parse_ops, h1] at h
         first
           | rw [parse_ops, parse_timed_ok_world _ _ _ _ w1 _ h1]
           | rw [parse_ops, parse_color_ok_world _ _ _ _ w1 _ h1]
           | rw [parse_ops, parse_brightness_ok_world _ _ w1 _ h1]
         exact ih h)
      | (rename_i h1; rw [parse_ops, h1] at h; cases h)
      | (rw [parse_ops] at h <;> first | cases h | assumption)

/-- C19: with an empty target list the dispatch loop makes no call and returns 0.
When the first token is a flag and the flags are valid, `main` returns 0 without any
call on the controller; when "all" is given, no indicator reports available and the
flags are valid, `main` returns 0 and the only calls are the availability queries of
"all". -/
theorem empty_selection (s i k : ugreen_leds_t) :
    (∀ (ctrl : ugreen_leds_t) (ops_seq : List ops_pair) (w : World),
      dispatch ctrl [] ops_seq w = ⟨.returned 0, w⟩) ∧
    (∀ (front : String) (args : List String) (ops_seq : List ops_pair),
      is_flag front = true → parse_ops (front :: args) [] World.init = .ok ops_seq →
      main ⟨some s, some i, some k⟩ (front :: args) = ⟨.returned 0, discovered_world s i k⟩ ∧
      (main ⟨some s, some i, some k⟩ (front :: args)).world.calls = []) ∧
    (∀ (front : String) (args : List String) (ops_seq : List ops_pair),
      (∀ hist id, ((active_controller s i k).status hist id).is_available = false) →
      is_flag front = true → parse_ops (front :: args) [] World.init = .ok ops_seq →
      main ⟨some s, some i, some k⟩ ("all" :: front :: args) =
        ⟨.returned 0, { discovered_world s i k with calls := all_queries }⟩) ∧
    main good_creators ["-on"] =
      ⟨.returned 0, ⟨["i2c"], [], ["Using i2c controller."], []⟩⟩ := by
  refine ⟨fun _ _ _ => rfl, ?_, ?_, by decide⟩
  · intro front args ops_seq hflag hparse
    have hp := parse_ops_ok_world _ _ _ (discovered_world s i k) _ hparse
    have hmain : main ⟨some s, some i, some k⟩ (front :: args) =
        ⟨.returned 0, discovered_world s i k⟩ := by
      rw [main_run_active s i k _ (by simp)]
      simp [run, select, hflag, hp, dispatch]
    refine ⟨hmain, ?_⟩
    rw [hmain]
    exact (discovered_world_fresh s i k).1
  · intro front args ops_seq hun hflag hparse
    have hp := parse_ops_ok_world _ _ _
      ({ discovered_world s i k with calls := all_queries } : World) _ hparse
    have hall : is_flag "all" = false := by decide
    rw [main_run_active s i k _ (by simp)]
    simp only [run]
    rw [select]
    simp only [hall, Bool.false_eq_true, if_false, if_true]
    rw [select_all_filter _ (fun _ => false) hun]
    simp only [select, hflag, if_true]
    simp [(discovered_world_fresh s i k).1, all_queries] at hp ⊢
    simp [hp, dispatch]

/-- Witness of C19: `-on -brightness 5` without a target, and `all -on` on a
controller that reports no indicator as available. -/
theorem empty_selection_witness :
    main ⟨some good_controller, some good_controller, some good_controller⟩
        ["-on", "-brightness", "5"] =
      ⟨.returned 0, discovered_world good_controller good_controller good_controller⟩ ∧
    main ⟨some no_leds_controller, some no_leds_controller, some no_leds_controller⟩
        ["all", "-on"] =
      ⟨.returned 0,
        { discovered_world no_leds_controller no_leds_controller no_leds_controller with
          calls := all_queries }⟩ :=
  ⟨((empty_selection good_controller good_controller good_controller).2.1 "-on"
      ["-brightness", "5"] _ (by decide) rfl).1,
    (empty_selection no_leds_controller no_leds_controller no_leds_controller).2.2.1 "-on" []
      _ (fun _ _ => rfl) (by decide) rfl⟩

end UgreenLeds
